import Mathlib

/-!
# Verification of the AstroCycle degradation-simulation scripts

Shallow embedding of the two Python scripts `astrocycle.py` and
`hackathon.py`.  Real-valued (float) quantities of the source are modelled
as rationals (`ℚ`); Python strings are modelled as `List Char`; the external
text-generation service is modelled as an oracle `ℕ → List Char` giving the
reply to the i-th call of a run.  Python string primitives (`in`, `split`,
`strip`, `float`) are modelled by the executable functions of the first
section below.
-/

/-! ## Python string primitives -/

/-- Prepend a character to the first part of a partition (helper for the
`split` models).  An empty partition never occurs. -/
def consHead (x : Char) : List (List Char) → List (List Char)
  | [] => [[x]]
  | l :: ls => (x :: l) :: ls

/-- Model of Python `s.split(c)` for a single-character separator `c`:
`"a\nb".split('\n') = ["a", "b"]`, `"".split('\n') = [""]`. -/
def splitOnChar (c : Char) : List Char → List (List Char)
  | [] => [[]]
  | x :: xs => if x = c then [] :: splitOnChar c xs else consHead x (splitOnChar c xs)

/-- Bool test whether `pat` starts the list `s` (model of Python
`s.startswith(pat)`; used to build the other string primitives). -/
def startsWith : List Char → List Char → Bool
  | [], _ => true
  | _ :: _, [] => false
  | p :: ps, x :: xs => p = x && startsWith ps xs

/-- Model of Python `pat in s` (substring containment). -/
def containsSeq (pat : List Char) : List Char → Bool
  | [] => pat.isEmpty
  | x :: xs => startsWith pat (x :: xs) || containsSeq pat xs

/-- Fuel-driven worker for `splitOnSeq`; the fuel is the length of the
string, so the `0`-fuel fallback is never reached on the intended calls
(structural recursion on the fuel keeps the definition kernel-reducible). -/
def splitOnSeqF (sep : List Char) : ℕ → List Char → List (List Char)
  | _, [] => [[]]
  | 0, s => [s]
  | fuel + 1, x :: xs =>
    if sep ≠ [] ∧ startsWith sep (x :: xs) then
      [] :: splitOnSeqF sep fuel (List.drop (sep.length - 1) xs)
    else
      consHead x (splitOnSeqF sep fuel xs)

/-- Model of Python `s.split(sep)` for a non-empty multi-character
separator: `"aXbXc".split("X") = ["a","b","c"]`, non-overlapping
left-to-right matches, keeping empty parts. -/
def splitOnSeq (sep s : List Char) : List (List Char) :=
  splitOnSeqF sep s.length s

/-- The whitespace characters stripped by Python `str.strip()` (and used as
separators by no-argument `str.split()`). -/
def isPySpace (c : Char) : Bool :=
  c = ' ' || c = '\t' || c = '\n' || c = '\r' || c = '\x0b' || c = '\x0c'

/-- Model of Python `s.strip()`: drop whitespace from both ends. -/
def stripChars (s : List Char) : List Char :=
  ((s.dropWhile isPySpace).reverse.dropWhile isPySpace).reverse

/-- Accumulator-based worker for `splitWs` (`cur` holds the current word in
reverse). -/
def splitWsAux (cur : List Char) : List Char → List (List Char)
  | [] => if cur.isEmpty then [] else [cur.reverse]
  | x :: xs =>
    if isPySpace x then
      if cur.isEmpty then splitWsAux [] xs else cur.reverse :: splitWsAux [] xs
    else splitWsAux (x :: cur) xs

/-- Model of Python `s.split()` with no argument: split on whitespace runs,
discarding empty words (`"a  b ".split() = ["a","b"]`, `" ".split() = []`). -/
def splitWs (s : List Char) : List (List Char) :=
  splitWsAux [] s

/-- Decimal digit test. -/
def isDigitChar (c : Char) : Bool :=
  '0' ≤ c && c ≤ '9'

/-- Numeric value of a digit string (most significant first). -/
def digitsToNat (ds : List Char) : ℕ :=
  ds.foldl (fun n c => 10 * n + (c.toNat - 48)) 0

/-- Parse the exponent tail of a float literal: either nothing, or
`e`/`E` followed by an optional sign and a non-empty digit string that
consumes the rest of the input. -/
def parseExpTail : List Char → Option ℤ
  | [] => some 0
  | c :: r =>
    if c = 'e' ∨ c = 'E' then
      let (sgn, r1) : ℤ × List Char :=
        match r with
        | '+' :: r' => (1, r')
        | '-' :: r' => (-1, r')
        | r' => (1, r')
      let ds := r1.takeWhile isDigitChar
      if ds ≠ [] ∧ r1.dropWhile isDigitChar = [] then
        some (sgn * (digitsToNat ds : ℤ))
      else none
    else none

/-- String-level front end of the model of Python `float(s)`: strips
whitespace and decomposes a decimal literal into
(negative?, integer digits, fractional digits, exponent), entirely at the
character level so that concrete instances reduce by `decide`.
`none` models a raised `ValueError`. -/
def pyFloatParts (s : List Char) : Option (Bool × List Char × List Char × ℤ) :=
  let s0 := stripChars s
  let (neg, s1) : Bool × List Char :=
    match s0 with
    | '+' :: r => (false, r)
    | '-' :: r => (true, r)
    | r => (false, r)
  let intPart := s1.takeWhile isDigitChar
  let rest1 := s1.dropWhile isDigitChar
  match rest1 with
  | '.' :: r2 =>
    let fracPart := r2.takeWhile isDigitChar
    let rest2 := r2.dropWhile isDigitChar
    if intPart = [] ∧ fracPart = [] then none
    else
      match parseExpTail rest2 with
      | some e => some (neg, intPart, fracPart, e)
      | none => none
  | rest =>
    if intPart = [] then none
    else
      match parseExpTail rest with
      | some e => some (neg, intPart, [], e)
      | none => none

/-- Rational value of a decomposed float literal. -/
def partsVal (p : Bool × List Char × List Char × ℤ) : ℚ :=
  (if p.1 then -1 else 1) *
    ((digitsToNat p.2.1 : ℚ) + (digitsToNat p.2.2.1 : ℚ) / 10 ^ (p.2.2.1).length) *
    10 ^ p.2.2.2

/-- Model of Python `float(s)` on its decimal-literal fragment: optional
surrounding whitespace, optional sign, `digits[.digits]` or `.digits`,
optional `e`/`E` exponent.  `none` models a raised `ValueError`.  The
special forms `inf`/`nan` and underscore digit separators, which no claim
exercises, are not modelled and also yield `none`. -/
def pyFloat (s : List Char) : Option ℚ :=
  (pyFloatParts s).map partsVal

/-! ## astrocycle.py: data model -/

/-- State of `astrocycle.IonThrusterElectrode` (floats as `ℚ`). -/
structure IonThrusterElectrode where
  sputtering_depth : ℚ
  surface_roughness : ℚ
  microcracks : ℚ
  thermal_stress : ℚ
  hot_spot_formation : ℚ
  electrical_resistance : ℚ
  arc_discharge_risk : ℚ
  thrust_efficiency_loss : ℚ
  cycle_count : ℕ
  critical_failure : Bool
deriving Repr, DecidableEq

/-- `IonThrusterElectrode.__init__`. -/
def initElectrode : IonThrusterElectrode where
  sputtering_depth := 0.0
  surface_roughness := 0.05
  microcracks := 0.02
  thermal_stress := 0.03
  hot_spot_formation := 0.01
  electrical_resistance := 1.0
  arc_discharge_risk := 0.05
  thrust_efficiency_loss := 0.0
  cycle_count := 0
  critical_failure := false

/-- `astrocycle.IonThrusterElectrode.apply_degradation`, translated
statement by statement; each `let` is one in-place assignment of the
source, later statements reading the already-updated fields. -/
def IonThrusterElectrode.apply_degradation (e : IonThrusterElectrode)
    (ion_flux voltage thermal_cycling mission_hours : ℚ) : IonThrusterElectrode :=
  let sputter_rate := ion_flux * 0.015 * (1 + e.surface_roughness * 0.3)
  let sputtering_depth := e.sputtering_depth + sputter_rate
  let surface_roughness := e.surface_roughness + sputter_rate * 0.8 * (1 + e.thermal_stress * 0.5)
  let crack_growth := thermal_cycling * 0.018 * (1 + sputtering_depth * 0.4)
  let microcracks := e.microcracks + crack_growth
  let thermal_stress := e.thermal_stress + thermal_cycling * 0.02 * (1 + microcracks * 1.2)
  let hot_spot_formation := e.hot_spot_formation + (microcracks * surface_roughness) * 0.025
  let resistance_increase := microcracks * 0.08 + sputtering_depth * 0.05 + hot_spot_formation * 0.12
  let electrical_resistance := e.electrical_resistance + resistance_increase
  let arc_discharge_risk := e.arc_discharge_risk +
    (voltage * electrical_resistance * 0.01 + hot_spot_formation * 0.15)
  let thrust_efficiency_loss := e.thrust_efficiency_loss +
    (sputtering_depth * 0.02 + electrical_resistance * 0.015 + surface_roughness * 0.01)
  let critical_failure :=
    if arc_discharge_risk > 0.7 ∨ sputtering_depth > 50.0 ∨ thrust_efficiency_loss > 0.3 then
      true
    else e.critical_failure
  { sputtering_depth, surface_roughness, microcracks, thermal_stress, hot_spot_formation,
    electrical_resistance, arc_discharge_risk, thrust_efficiency_loss,
    cycle_count := e.cycle_count + 1, critical_failure }

/-- Iterated degradation updates: one `apply_degradation` call per
argument tuple of `inputs`, in order ("all subsequent calls" of C3). -/
def IonThrusterElectrode.applyMany (e : IonThrusterElectrode) :
    List (ℚ × ℚ × ℚ × ℚ) → IonThrusterElectrode
  | [] => e
  | (f, v, t, m) :: rest => (e.apply_degradation f v t m).applyMany rest

/-- State of `astrocycle.MissionEnvironment`. -/
structure MissionEnvironment where
  ion_flux : ℚ
  voltage : ℚ
  thermal_cycling : ℚ
  mission_hours : ℚ
deriving Repr, DecidableEq

/-- `MissionEnvironment.__init__`. -/
def initMissionEnvironment : MissionEnvironment where
  ion_flux := 1.0
  voltage := 1.0
  thermal_cycling := 1.0
  mission_hours := 100

/-! ## astrocycle.py: adjustment parser -/

def recommendMarker : List Char := "RECOMMEND:".toList
def ionFluxKey : List Char := "ion_flux=".toList
def voltageKey : List Char := "voltage=".toList
def thermalKey : List Char := "thermal=".toList

/-- `line.split(key)[1].split(',')[0].strip()` — the value token of a
comma-terminated field.  When `key` occurs in `line` the index-1 part
exists; the `[]` defaults are unreachable under that guard and stand for
the `IndexError` path, which the surrounding `except` would turn into the
same no-op as an unparseable token. -/
def fieldTokenComma (key line : List Char) : List Char :=
  stripChars ((splitOnChar ',' ((splitOnSeq key line).getD 1 [])).headD [])

/-- `line.split(key)[1].strip()` — the value token of the line-final field
(astrocycle's `thermal=`). -/
def fieldTokenRest (key line : List Char) : List Char :=
  stripChars ((splitOnSeq key line).getD 1 [])

/-- The three `if 'name=' in recommend_line` blocks of the `try`-block of
`astrocycle.run_brain_cycle`, applied to the selected `RECOMMEND:` line in
source order.  A `none` from `pyFloat` models the `ValueError` that aborts
the remaining assignments (the `except: pass`), keeping every assignment
already executed. -/
def applyRecommend (recommend_line : List Char) (env : MissionEnvironment) : MissionEnvironment :=
  let step1 : MissionEnvironment × Bool :=
    if containsSeq ionFluxKey recommend_line then
      match pyFloat (fieldTokenComma ionFluxKey recommend_line) with
      | some flux_val => ({ env with ion_flux := env.ion_flux * flux_val }, true)
      | none => (env, false)
    else (env, true)
  if step1.2 then
    let env1 := step1.1
    let step2 : MissionEnvironment × Bool :=
      if containsSeq voltageKey recommend_line then
        match pyFloat (fieldTokenComma voltageKey recommend_line) with
        | some volt_val => ({ env1 with voltage := env1.voltage * volt_val }, true)
        | none => (env1, false)
      else (env1, true)
    if step2.2 then
      let env2 := step2.1
      if containsSeq thermalKey recommend_line then
        match pyFloat (fieldTokenRest thermalKey recommend_line) with
        | some thermal_val => { env2 with thermal_cycling := env2.thermal_cycling * thermal_val }
        | none => env2
      else env2
    else step2.1
  else step1.1

/-- The `try`-block of `astrocycle.run_brain_cycle` step 4 ("Parse and
apply adjustments"): scan `reasoning` for a `RECOMMEND:` line and apply the
three multipliers in source order via `applyRecommend`. -/
def astroParse (reasoning : List Char) (env : MissionEnvironment) : MissionEnvironment :=
  if containsSeq recommendMarker reasoning then
    match (splitOnChar '\n' reasoning).filter (fun l => containsSeq recommendMarker l) with
    | [] => env
    | recommend_line :: _ => applyRecommend recommend_line env
  else env

/-! ## hackathon.py: data model and parser -/

/-- State of `hackathon.MaterialState`. -/
structure MaterialState where
  defect_density : ℚ
  thermal_stress : ℚ
  conductivity_drift : ℚ
  cycle_count : ℕ
deriving Repr, DecidableEq

/-- `MaterialState.__init__`. -/
def initMaterialState : MaterialState where
  defect_density := 0.01
  thermal_stress := 0.05
  conductivity_drift := 0.0
  cycle_count := 0

/-- `hackathon.MaterialState.apply_degradation`, statement by statement. -/
def MaterialState.apply_degradation (s : MaterialState)
    (radiation_level temp_cycling : ℚ) : MaterialState :=
  let defect_density := s.defect_density + radiation_level * 0.008 * (1 + s.thermal_stress)
  let thermal_stress := s.thermal_stress + temp_cycling * 0.012 * (1 + defect_density * 0.5)
  let conductivity_drift := s.conductivity_drift -
    (defect_density * 0.015 + thermal_stress * 0.008)
  { defect_density, thermal_stress, conductivity_drift, cycle_count := s.cycle_count + 1 }

/-- State of `hackathon.SpaceEnvironment`. -/
structure SpaceEnvironment where
  radiation_level : ℚ
  temp_cycling : ℚ
deriving Repr, DecidableEq

/-- `SpaceEnvironment.__init__`. -/
def initSpaceEnvironment : SpaceEnvironment where
  radiation_level := 1.0
  temp_cycling := 1.0

def adjustMarker : List Char := "ADJUST:".toList
def radiationKey : List Char := "radiation=".toList
def tempKey : List Char := "temp=".toList

/-- `line.split(key)[1].split()[0].strip()` — the value token of a
whitespace-terminated field (hackathon's `temp=`).  An all-whitespace
remainder makes `split()` empty; its `[0]` would raise `IndexError`, which
the surrounding `except` turns into the same no-op as an unparseable
token, so the `[]` default is observationally faithful. -/
def fieldTokenWs (key line : List Char) : List Char :=
  stripChars ((splitWs ((splitOnSeq key line).getD 1 [])).headD [])

/-- The two `if 'name=' in adjust_line` blocks of the `try`-block of
`hackathon.run_brain_cycle`, applied to the selected `ADJUST:` line in
source order; a `ValueError` (modelled by `none`) aborts the remaining
assignments, keeping those already executed. -/
def applyAdjust (adjust_line : List Char) (env : SpaceEnvironment) : SpaceEnvironment :=
  let step1 : SpaceEnvironment × Bool :=
    if containsSeq radiationKey adjust_line then
      match pyFloat (fieldTokenComma radiationKey adjust_line) with
      | some rad_val => ({ env with radiation_level := env.radiation_level * rad_val }, true)
      | none => (env, false)
    else (env, true)
  if step1.2 then
    let env1 := step1.1
    if containsSeq tempKey adjust_line then
      match pyFloat (fieldTokenWs tempKey adjust_line) with
      | some temp_val => { env1 with temp_cycling := env1.temp_cycling * temp_val }
      | none => env1
    else env1
  else step1.1

/-- The `try`-block of `hackathon.run_brain_cycle` step 4 ("Parse
adjustments"): scan `reasoning` for an `ADJUST:` line and apply the two
multipliers via `applyAdjust`. -/
def hackParse (reasoning : List Char) (env : SpaceEnvironment) : SpaceEnvironment :=
  if containsSeq adjustMarker reasoning then
    match (splitOnChar '\n' reasoning).filter (fun l => containsSeq adjustMarker l) with
    | [] => env
    | adjust_line :: _ => applyAdjust adjust_line env
  else env

/-! ## History snapshots (`to_dict`) -/

/-- Python 3 `round` to an integer: nearest, ties to even.  Modelled on the
exact rational value; the bit-level double representation that `round`
actually sees is outside this embedding (no claim depends on snapshot
digits). -/
def roundHalfEven (x : ℚ) : ℤ :=
  if x - ⌊x⌋ < 1 / 2 then ⌊x⌋
  else if 1 / 2 < x - ⌊x⌋ then ⌊x⌋ + 1
  else if 2 ∣ ⌊x⌋ then ⌊x⌋ else ⌊x⌋ + 1

/-- Python `round(x, n)` for `n` decimal digits, on exact rationals. -/
def pyRound (n : ℕ) (x : ℚ) : ℚ :=
  (roundHalfEven (x * 10 ^ n) : ℚ) / 10 ^ n

/-- One `CycleHistoryEntry` of astrocycle: image of
`IonThrusterElectrode.to_dict`. -/
structure ElectrodeSnapshot where
  cycle : ℕ
  sputtering_depth_um : ℚ
  surface_roughness : ℚ
  microcracks : ℚ
  thermal_stress : ℚ
  hot_spot_formation : ℚ
  electrical_resistance : ℚ
  arc_discharge_risk : ℚ
  thrust_efficiency_loss_pct : ℚ
  critical_failure : Bool
deriving Repr, DecidableEq

/-- `astrocycle.IonThrusterElectrode.to_dict`. -/
def IonThrusterElectrode.to_dict (e : IonThrusterElectrode) : ElectrodeSnapshot where
  cycle := e.cycle_count
  sputtering_depth_um := pyRound 3 e.sputtering_depth
  surface_roughness := pyRound 3 e.surface_roughness
  microcracks := pyRound 3 e.microcracks
  thermal_stress := pyRound 3 e.thermal_stress
  hot_spot_formation := pyRound 3 e.hot_spot_formation
  electrical_resistance := pyRound 3 e.electrical_resistance
  arc_discharge_risk := pyRound 3 e.arc_discharge_risk
  thrust_efficiency_loss_pct := pyRound 2 (e.thrust_efficiency_loss * 100)
  critical_failure := e.critical_failure

/-- One `CycleHistoryEntry` of hackathon: image of
`MaterialState.to_dict`. -/
structure MaterialSnapshot where
  cycle : ℕ
  defect_density : ℚ
  thermal_stress : ℚ
  conductivity_drift : ℚ
deriving Repr, DecidableEq

/-- `hackathon.MaterialState.to_dict`. -/
def MaterialState.to_dict (s : MaterialState) : MaterialSnapshot where
  cycle := s.cycle_count
  defect_density := pyRound 4 s.defect_density
  thermal_stress := pyRound 4 s.thermal_stress
  conductivity_drift := pyRound 4 s.conductivity_drift

/-! ## Cycle drivers

The external text-generation boundary is modelled as an oracle
`ℕ → List Char` giving the reply text of the i-th per-cycle call of a run;
any concrete run of the script corresponds to some such oracle.  The
prompt construction only feeds that boundary, so it does not appear in the
state evolution. -/

/-- Final state of a driver run: `Completed` models falling out of the
`for` loop, `TerminatedEarly` models the `break` on `critical_failure`. -/
inductive DriverStatus where
  | completed
  | terminatedEarly
deriving Repr, DecidableEq

/-- `astrocycle.run_brain_cycle` restricted to its state effects: apply
degradation with the current environment, then parse the reply `reasoning`
of the external call and adjust the environment. -/
def runBrainCycleAstro (reasoning : List Char) (e : IonThrusterElectrode)
    (env : MissionEnvironment) : IonThrusterElectrode × MissionEnvironment :=
  (e.apply_degradation env.ion_flux env.voltage env.thermal_cycling env.mission_hours,
   astroParse reasoning env)

/-- Result of an astrocycle driver run.  `update_calls` counts the
invocations of `apply_degradation` (one per executed brain cycle). -/
structure AstroSimResult where
  electrode : IonThrusterElectrode
  environment : MissionEnvironment
  cycle_history : List ElectrodeSnapshot
  update_calls : ℕ
  status : DriverStatus
deriving Repr, DecidableEq

/-- The `for i in range(15)` loop of `astrocycle.run_simulation`: stop on
`critical_failure`, otherwise run one brain cycle and append
`electrode.to_dict()` to the history. -/
def astroLoop (oracle : ℕ → List Char) : ℕ → ℕ → IonThrusterElectrode → MissionEnvironment →
    List ElectrodeSnapshot → ℕ → AstroSimResult
  | 0, _, e, env, hist, u => ⟨e, env, hist, u, .completed⟩
  | fuel + 1, i, e, env, hist, u =>
    if e.critical_failure then ⟨e, env, hist, u, .terminatedEarly⟩
    else
      let p := runBrainCycleAstro (oracle i) e env
      astroLoop oracle fuel (i + 1) p.1 p.2 (hist ++ [p.1.to_dict]) (u + 1)

/-- `astrocycle.run_simulation` up to the final synthesis call: 15
iterations from the freshly constructed state. -/
def runSimulationAstro (oracle : ℕ → List Char) : AstroSimResult :=
  astroLoop oracle 15 0 initElectrode initMissionEnvironment [] 0

/-- `k` successive brain cycles of astrocycle starting at call index `i`
(the loop body without the `break` check), used to phrase when the run
first trips the terminal flag. -/
def astroIter (oracle : ℕ → List Char) : ℕ → ℕ →
    IonThrusterElectrode × MissionEnvironment → IonThrusterElectrode × MissionEnvironment
  | 0, _, p => p
  | k + 1, i, p => astroIter oracle k (i + 1) (runBrainCycleAstro (oracle i) p.1 p.2)

/-- `hackathon.run_brain_cycle` restricted to its state effects. -/
def runBrainCycleHack (reasoning : List Char) (s : MaterialState)
    (env : SpaceEnvironment) : MaterialState × SpaceEnvironment :=
  (s.apply_degradation env.radiation_level env.temp_cycling, hackParse reasoning env)

/-- Result of a hackathon driver run. -/
structure HackSimResult where
  state : MaterialState
  environment : SpaceEnvironment
  cycle_history : List MaterialSnapshot
  update_calls : ℕ
  status : DriverStatus
deriving Repr, DecidableEq

/-- The `for i in range(10)` loop of `hackathon.run_simulation` (no
terminal flag, no break). -/
def hackLoop (oracle : ℕ → List Char) : ℕ → ℕ → MaterialState → SpaceEnvironment →
    List MaterialSnapshot → ℕ → HackSimResult
  | 0, _, s, env, hist, u => ⟨s, env, hist, u, .completed⟩
  | fuel + 1, i, s, env, hist, u =>
    let p := runBrainCycleHack (oracle i) s env
    hackLoop oracle fuel (i + 1) p.1 p.2 (hist ++ [p.1.to_dict]) (u + 1)

/-- `hackathon.run_simulation` up to the final synthesis call. -/
def runSimulationHack (oracle : ℕ → List Char) : HackSimResult :=
  hackLoop oracle 10 0 initMaterialState initSpaceEnvironment [] 0

/-! ## Concrete reasoning texts used by the claims -/

/-- The reply text of the C6 example. -/
def textC6 : List Char := "RECOMMEND: ion_flux=1.1, voltage=0.9, thermal=1.0".toList

/-- A reply whose `voltage` value fails numeric conversion after the
`ion_flux` multiplication has already been applied (C1). -/
def textC1 : List Char := "RECOMMEND: ion_flux=1.1, voltage=abc".toList

/-- A reply whose final `thermal` value carries trailing commentary (C4,
astrocycle side). -/
def textC4a : List Char := "RECOMMEND: ion_flux=1.2, voltage=1.1, thermal=0.5 to reduce stress".toList

/-- A reply whose final `temp` value carries trailing commentary (C4,
hackathon side). -/
def textC4h : List Char := "ADJUST: radiation=1.2, temp=1.1 then monitor the stress".toList

/-- A marker-free reply (C5 witness). -/
def textNoMarker : List Char := "TREND: stable\nRISK: low".toList

/-- A reply recommending the multiplier 0.0 for every mission parameter,
zeroing the environment and keeping the run below every terminal
threshold (C7 witness). -/
def textZero : List Char := "RECOMMEND: ion_flux=0.0, voltage=0.0, thermal=0.0".toList

/-- A reply recommending that every mission parameter be scaled up
thirty-fold, used to trip the terminal threshold early (C8 witness). -/
def textPump : List Char := "RECOMMEND: ion_flux=30.0, voltage=30.0, thermal=30.0".toList

/-- Oracle of the C7 witness run: damp everything to zero after the first
cycle, stay silent afterwards. -/
def oracleC7 : ℕ → List Char := fun i => if i = 0 then textZero else []

/-- Oracle of the C8 witness run: pump every parameter thirty-fold each
cycle, tripping `arc_discharge_risk > 0.7` during cycle 3. -/
def oracleC8 : ℕ → List Char := fun _ => textPump

/-! ## Sanity checks of the string primitives -/

example : splitOnChar '\n' "a\nb".toList = ["a".toList, "b".toList] := by decide
example : splitOnSeq "X".toList "aXbXc".toList = ["a".toList, "b".toList, "c".toList] := by decide
example : splitOnSeq "lux=".toList "flux=1.1, v=2".toList = ["f".toList, "1.1, v=2".toList] := by decide
example : containsSeq "b c".toList "a b cd".toList = true := by decide
example : containsSeq "bd".toList "a b cd".toList = false := by decide
example : splitWs "  a  bc ".toList = ["a".toList, "bc".toList] := by decide
example : stripChars "  a b ".toList = "a b".toList := by decide
example : pyFloatParts "1.1".toList = some (false, ['1'], ['1'], 0) := by decide
example : pyFloat "1.1".toList = some (11 / 10) := by
  have h : pyFloatParts "1.1".toList = some (false, ['1'], ['1'], 0) := by decide
  rw [pyFloat, h]
  norm_num [partsVal, show digitsToNat ['1'] = 1 by decide]
example : pyFloat "abc".toList = none := by
  have h : pyFloatParts "abc".toList = none := by decide
  rw [pyFloat, h]; rfl
example : pyFloat "1.0 to reduce stress".toList = none := by
  have h : pyFloatParts "1.0 to reduce stress".toList = none := by decide
  rw [pyFloat, h]; rfl
example : pyFloat "-2.5e-1".toList = some (-1 / 4) := by
  have h : pyFloatParts "-2.5e-1".toList = some (true, ['2'], ['5'], -1) := by decide
  rw [pyFloat, h]
  norm_num [partsVal, show digitsToNat ['2'] = 2 by decide,
    show digitsToNat ['5'] = 5 by decide]

/-! ## String lemmas -/

theorem startsWith_iff (pat : List Char) : ∀ s : List Char,
    startsWith pat s = true ↔ pat <+: s := by
  induction pat with
  | nil => intro s; simp [startsWith]
  | cons p ps ih =>
    intro s
    cases s with
    | nil =>
      simp only [startsWith, Bool.false_eq_true, false_iff]
      rintro ⟨t, ht⟩
      simp at ht
    | cons x xs =>
      simp only [startsWith, Bool.and_eq_true, decide_eq_true_eq, ih]
      constructor
      · rintro ⟨rfl, t, rfl⟩
        exact ⟨t, rfl⟩
      · rintro ⟨t, ht⟩
        rw [List.cons_append] at ht
        injection ht with h1 h2
        exact ⟨h1, t, h2⟩

theorem containsSeq_iff (pat : List Char) : ∀ s : List Char,
    containsSeq pat s = true ↔ pat <:+: s := by
  intro s
  induction s with
  | nil =>
    simp only [containsSeq, List.isEmpty_iff]
    constructor
    · rintro rfl; exact ⟨[], [], rfl⟩
    · rintro ⟨u, v, huv⟩
      rcases List.append_eq_nil.mp huv with ⟨h1, h2⟩
      exact (List.append_eq_nil.mp h1).2
  | cons x xs ih =>
    simp only [containsSeq, Bool.or_eq_true, startsWith_iff, ih]
    constructor
    · rintro (⟨t, ht⟩ | ⟨u, v, huv⟩)
      · exact ⟨[], t, by simpa using ht⟩
      · exact ⟨x :: u, v, by simp only [List.cons_append]; rw [huv]⟩
    · rintro ⟨u, v, huv⟩
      cases u with
      | nil => exact Or.inl ⟨v, by simpa using huv⟩
      | cons c u' =>
        right
        simp only [List.cons_append] at huv
        injection huv with _ h
        exact ⟨u', v, h⟩

theorem splitOnChar_eq_cons (c : Char) : ∀ s : List Char,
    ∃ t, splitOnChar c s = (s.takeWhile (· != c)) :: t := by
  intro s
  induction s with
  | nil => exact ⟨[], rfl⟩
  | cons x xs ih =>
    by_cases hx : x = c
    · subst hx
      refine ⟨splitOnChar x xs, ?_⟩
      simp [splitOnChar, List.takeWhile_cons]
    · obtain ⟨t, ht⟩ := ih
      refine ⟨t, ?_⟩
      simp only [splitOnChar, if_neg hx, ht, consHead, List.takeWhile_cons]
      have : (x != c) = true := bne_iff_ne.mpr hx
      simp [this]

theorem takeWhile_bne_of_pfx {c : Char} : ∀ (pat s : List Char), pat <+: s →
    (∀ a ∈ pat, a ≠ c) → pat <+: s.takeWhile (· != c) := by
  intro pat
  induction pat with
  | nil => intro s _ _; exact ⟨_, rfl⟩
  | cons p ps ih =>
    rintro s ⟨t, rfl⟩ hmem
    have hp : (p != c) = true := bne_iff_ne.mpr (hmem p (by simp))
    rw [List.cons_append, List.takeWhile_cons, hp]
    simp only [if_true]
    obtain ⟨t', ht'⟩ := ih (ps ++ t) ⟨t, rfl⟩ (fun a ha => hmem a (by simp [ha]))
    exact ⟨t', by rw [List.cons_append, ht']⟩

/-- If `pat` occurs in `s` and contains no separator character, then some
part of `splitOnChar c s` contains `pat`: the guarded index-0 access of the
two parsers is safe. -/
theorem mem_splitOnChar_of_containsSeq (c : Char) (pat : List Char) :
    ∀ s : List Char, containsSeq pat s = true → c ∉ pat →
    ∃ l ∈ splitOnChar c s, containsSeq pat l = true := by
  intro s
  induction s with
  | nil =>
    intro h _
    refine ⟨[], by simp [splitOnChar], ?_⟩
    simpa [containsSeq] using h
  | cons x xs ih =>
    intro h hc
    rcases Bool.or_eq_true _ _ |>.mp (by simpa [containsSeq] using h) with hpre | hrest
    · -- pat starts at the head of `x :: xs`
      by_cases hx : x = c
      · subst hx
        cases pat with
        | nil =>
          exact ⟨[], by simp [splitOnChar], by simp [containsSeq]⟩
        | cons p ps =>
          exfalso
          obtain ⟨t, ht⟩ := (startsWith_iff _ _).mp hpre
          apply hc
          have : p = x := by injection ht
          simp [this]
      · have hpfx : pat <+: (x :: xs) := (startsWith_iff _ _).mp hpre
        have htw : pat <+: (x :: xs).takeWhile (· != c) :=
          takeWhile_bne_of_pfx pat (x :: xs) hpfx (fun a ha hac => hc (hac ▸ ha))
        obtain ⟨t, ht⟩ := splitOnChar_eq_cons c (x :: xs)
        refine ⟨(x :: xs).takeWhile (· != c), by simp [ht], ?_⟩
        obtain ⟨t', ht'⟩ := htw
        exact (containsSeq_iff _ _).mpr ⟨[], t', by simpa using ht'⟩
    · obtain ⟨l, hl, hcl⟩ := ih hrest hc
      by_cases hx : x = c
      · subst hx
        exact ⟨l, by simp [splitOnChar, hl], hcl⟩
      · obtain ⟨t, ht⟩ := splitOnChar_eq_cons c xs
        rw [ht] at hl
        rcases List.mem_cons.mp hl with hleq | hlt
        · refine ⟨x :: l, ?_, ?_⟩
          · simp [splitOnChar, if_neg hx, ht, consHead, hleq]
          · rcases (containsSeq_iff _ _).mp hcl with ⟨u, v, huv⟩
            exact (containsSeq_iff _ _).mpr
              ⟨x :: u, v, by simp only [List.cons_append]; rw [huv]⟩
        · refine ⟨l, ?_, hcl⟩
          simp [splitOnChar, if_neg hx, ht, consHead, hlt]

/-! ## Claims -/

/-- C10: In both parsers, whenever the marker-membership check succeeds
(the marker token occurs somewhere in the reasoning text), the list
comprehension selecting lines containing the marker is non-empty, so the
subsequent index-0 access into that list never fails. -/
theorem claim_C10 (text : List Char) :
    (containsSeq recommendMarker text = true →
      (splitOnChar '\n' text).filter (fun l => containsSeq recommendMarker l) ≠ []) ∧
    (containsSeq adjustMarker text = true →
      (splitOnChar '\n' text).filter (fun l => containsSeq adjustMarker l) ≠ []) := by
  constructor <;> intro h
  · obtain ⟨l, hl, hcl⟩ := mem_splitOnChar_of_containsSeq '\n' recommendMarker text h (by decide)
    exact List.ne_nil_of_mem (List.mem_filter.mpr ⟨hl, hcl⟩)
  · obtain ⟨l, hl, hcl⟩ := mem_splitOnChar_of_containsSeq '\n' adjustMarker text h (by decide)
    exact List.ne_nil_of_mem (List.mem_filter.mpr ⟨hl, hcl⟩)

/-- Witness for C10 at concrete reasoning texts. -/
theorem claim_C10_witness :
    containsSeq recommendMarker "FOO\nRECOMMEND: ion_flux=1.0\nBAR".toList = true ∧
    containsSeq adjustMarker "ADJUST: radiation=1.0".toList = true ∧
    (splitOnChar '\n' "FOO\nRECOMMEND: ion_flux=1.0\nBAR".toList).filter
      (fun l => containsSeq recommendMarker l) ≠ [] ∧
    (splitOnChar '\n' "ADJUST: radiation=1.0".toList).filter
      (fun l => containsSeq adjustMarker l) ≠ [] :=
  ⟨by decide, by decide,
   (claim_C10 "FOO\nRECOMMEND: ion_flux=1.0\nBAR".toList).1 (by decide),
   (claim_C10 "ADJUST: radiation=1.0".toList).2 (by decide)⟩

/-- C5: On a text with no line containing the marker token, each parser
returns the environment unchanged, field for field. -/
theorem claim_C5 (text : List Char) (envA : MissionEnvironment) (envH : SpaceEnvironment)
    (hA : ∀ l ∈ splitOnChar '\n' text, containsSeq recommendMarker l = false)
    (hH : ∀ l ∈ splitOnChar '\n' text, containsSeq adjustMarker l = false) :
    astroParse text envA = envA ∧ hackParse text envH = envH := by
  have hA' : containsSeq recommendMarker text = false := by
    rcases Bool.eq_false_or_eq_true (containsSeq recommendMarker text) with h | h
    · obtain ⟨l, hl, hcl⟩ :=
        mem_splitOnChar_of_containsSeq '\n' recommendMarker text h (by decide)
      rw [hA l hl] at hcl
      exact absurd hcl (by simp)
    · exact h
  have hH' : containsSeq adjustMarker text = false := by
    rcases Bool.eq_false_or_eq_true (containsSeq adjustMarker text) with h | h
    · obtain ⟨l, hl, hcl⟩ :=
        mem_splitOnChar_of_containsSeq '\n' adjustMarker text h (by decide)
      rw [hH l hl] at hcl
      exact absurd hcl (by simp)
    · exact h
  constructor
  · rw [astroParse, hA']; simp
  · rw [hackParse, hH']; simp

/-- Witness for C5 at a concrete marker-free text. -/
theorem claim_C5_witness :
    (∀ l ∈ splitOnChar '\n' textNoMarker,
      containsSeq recommendMarker l = false) ∧
    (∀ l ∈ splitOnChar '\n' textNoMarker,
      containsSeq adjustMarker l = false) ∧
    astroParse textNoMarker initMissionEnvironment =
      initMissionEnvironment ∧
    hackParse textNoMarker initSpaceEnvironment =
      initSpaceEnvironment :=
  ⟨by decide, by decide,
   (claim_C5 textNoMarker initMissionEnvironment initSpaceEnvironment
     (by decide) (by decide)).1,
   (claim_C5 textNoMarker initMissionEnvironment initSpaceEnvironment
     (by decide) (by decide)).2⟩

/-- C6: Applying the astrocycle parser to
`"RECOMMEND: ion_flux=1.1, voltage=0.9, thermal=1.0"` with all environment
fields at 1.0 yields `ion_flux = 1.1`, `voltage = 0.9`,
`thermal_cycling = 1.0`. -/
theorem claim_C6 :
    astroParse textC6 initMissionEnvironment =
    { ion_flux := 1.1, voltage := 0.9, thermal_cycling := 1.0, mission_hours := 100 } := by
  have h0 : containsSeq recommendMarker textC6 = true := by decide
  have h1 : (splitOnChar '\n' textC6).filter (fun l => containsSeq recommendMarker l) =
      [textC6] := by decide
  have h3 : pyFloatParts (fieldTokenComma ionFluxKey textC6) =
      some (false, ['1'], ['1'], 0) := by decide
  have h5 : pyFloatParts (fieldTokenComma voltageKey textC6) =
      some (false, ['0'], ['9'], 0) := by decide
  have h7 : pyFloatParts (fieldTokenRest thermalKey textC6) =
      some (false, ['1'], ['0'], 0) := by decide
  rw [astroParse, if_pos h0, h1]
  simp only [applyRecommend, pyFloat, h3, h5, h7, Option.map_some']
  norm_num [partsVal, initMissionEnvironment,
    show containsSeq ionFluxKey textC6 = true by decide,
    show containsSeq voltageKey textC6 = true by decide,
    show containsSeq thermalKey textC6 = true by decide,
    show digitsToNat ['1'] = 1 by decide, show digitsToNat ['0'] = 0 by decide,
    show digitsToNat ['9'] = 9 by decide]

/-! ## Parser path lemmas (shared by C1 and C4) -/

theorem astroParse_no_marker (reasoning : List Char) (env : MissionEnvironment)
    (h : containsSeq recommendMarker reasoning = false) :
    astroParse reasoning env = env := by
  simp [astroParse, h]

theorem hackParse_no_marker (reasoning : List Char) (env : SpaceEnvironment)
    (h : containsSeq adjustMarker reasoning = false) :
    hackParse reasoning env = env := by
  simp [hackParse, h]

theorem astroParse_line (reasoning : List Char) (env : MissionEnvironment)
    (line : List Char) (rest : List (List Char))
    (hg : containsSeq recommendMarker reasoning = true)
    (hfil : (splitOnChar '\n' reasoning).filter (fun l => containsSeq recommendMarker l) =
      line :: rest) :
    astroParse reasoning env = applyRecommend line env := by
  rw [astroParse, if_pos hg, hfil]

theorem hackParse_line (reasoning : List Char) (env : SpaceEnvironment)
    (line : List Char) (rest : List (List Char))
    (hg : containsSeq adjustMarker reasoning = true)
    (hfil : (splitOnChar '\n' reasoning).filter (fun l => containsSeq adjustMarker l) =
      line :: rest) :
    hackParse reasoning env = applyAdjust line env := by
  rw [hackParse, if_pos hg, hfil]

theorem applyRecommend_ion_fail (line : List Char) (env : MissionEnvironment)
    (hk : containsSeq ionFluxKey line = true)
    (hf : pyFloat (fieldTokenComma ionFluxKey line) = none) :
    applyRecommend line env = env := by
  simp [applyRecommend, hk, hf]

theorem applyRecommend_volt_fail (line : List Char) (env : MissionEnvironment)
    (hk : containsSeq voltageKey line = true)
    (hf : pyFloat (fieldTokenComma voltageKey line) = none) :
    (applyRecommend line env).voltage = env.voltage ∧
    (applyRecommend line env).thermal_cycling = env.thermal_cycling := by
  cases h1 : containsSeq ionFluxKey line
  · simp [applyRecommend, h1, hk, hf]
  · cases h2 : pyFloat (fieldTokenComma ionFluxKey line)
    · simp [applyRecommend, h1, h2]
    · simp [applyRecommend, h1, h2, hk, hf]

theorem applyRecommend_therm_fail (line : List Char) (env : MissionEnvironment)
    (hk : containsSeq thermalKey line = true)
    (hf : pyFloat (fieldTokenRest thermalKey line) = none) :
    (applyRecommend line env).thermal_cycling = env.thermal_cycling := by
  cases h1 : containsSeq ionFluxKey line
  · cases h3 : containsSeq voltageKey line
    · simp [applyRecommend, h1, h3, hk, hf]
    · cases h4 : pyFloat (fieldTokenComma voltageKey line)
      · simp [applyRecommend, h1, h3, h4]
      · simp [applyRecommend, h1, h3, h4, hk, hf]
  · cases h2 : pyFloat (fieldTokenComma ionFluxKey line)
    · simp [applyRecommend, h1, h2]
    · cases h3 : containsSeq voltageKey line
      · simp [applyRecommend, h1, h2, h3, hk, hf]
      · cases h4 : pyFloat (fieldTokenComma voltageKey line)
        · simp [applyRecommend, h1, h2, h3, h4]
        · simp [applyRecommend, h1, h2, h3, h4, hk, hf]

theorem applyAdjust_rad_fail (line : List Char) (env : SpaceEnvironment)
    (hk : containsSeq radiationKey line = true)
    (hf : pyFloat (fieldTokenComma radiationKey line) = none) :
    applyAdjust line env = env := by
  simp [applyAdjust, hk, hf]

theorem applyAdjust_temp_fail (line : List Char) (env : SpaceEnvironment)
    (hk : containsSeq tempKey line = true)
    (hf : pyFloat (fieldTokenWs tempKey line) = none) :
    (applyAdjust line env).temp_cycling = env.temp_cycling := by
  cases h1 : containsSeq radiationKey line
  · simp [applyAdjust, h1, hk, hf]
  · cases h2 : pyFloat (fieldTokenComma radiationKey line)
    · simp [applyAdjust, h1, h2]
    · simp [applyAdjust, h1, h2, hk, hf]

/-- C1, counterexample: on `textC1` the `voltage` conversion fails, yet the
already-executed `ion_flux` multiplication survives, so the environment
does not equal its pre-parse value field for field. -/
theorem claim_C1_counterexample :
    pyFloat (fieldTokenComma voltageKey textC1) = none ∧
    initMissionEnvironment.ion_flux = 1.0 ∧
    (astroParse textC1 initMissionEnvironment).ion_flux = 1.1 ∧
    (1.1 : ℚ) ≠ 1.0 := by
  have hf : pyFloat (fieldTokenComma voltageKey textC1) = none := by
    rw [pyFloat, show pyFloatParts (fieldTokenComma voltageKey textC1) = none by decide]
    rfl
  refine ⟨hf, by norm_num [initMissionEnvironment], ?_, by norm_num⟩
  have h0 : containsSeq recommendMarker textC1 = true := by decide
  have h1 : (splitOnChar '\n' textC1).filter (fun l => containsSeq recommendMarker l) =
      [textC1] := by decide
  have h3 : pyFloatParts (fieldTokenComma ionFluxKey textC1) =
      some (false, ['1'], ['1'], 0) := by decide
  have h5 : pyFloatParts (fieldTokenComma voltageKey textC1) = none := by decide
  rw [astroParse_line textC1 initMissionEnvironment textC1 [] h0 h1]
  simp only [applyRecommend, pyFloat, h3, h5, Option.map_some', Option.map_none']
  norm_num [partsVal, initMissionEnvironment,
    show containsSeq ionFluxKey textC1 = true by decide,
    show containsSeq voltageKey textC1 = true by decide,
    show digitsToNat ['1'] = 1 by decide]

/-- C1, amended: in both parsers a failed numeric conversion silently
abandons the failing field and every later field (they keep their
pre-parse values), but multiplicative updates already applied to earlier
fields of the same line survive; if the first parsed field fails, the
whole environment is unchanged. -/
theorem claim_C1_amended (reasoning : List Char) (envA : MissionEnvironment)
    (envH : SpaceEnvironment) (lineA lineH : List Char) :
    (((splitOnChar '\n' reasoning).filter (fun l => containsSeq recommendMarker l)).head? =
        some lineA →
      (containsSeq ionFluxKey lineA = true →
        pyFloat (fieldTokenComma ionFluxKey lineA) = none →
        astroParse reasoning envA = envA) ∧
      (containsSeq voltageKey lineA = true →
        pyFloat (fieldTokenComma voltageKey lineA) = none →
        (astroParse reasoning envA).voltage = envA.voltage ∧
        (astroParse reasoning envA).thermal_cycling = envA.thermal_cycling) ∧
      (containsSeq thermalKey lineA = true →
        pyFloat (fieldTokenRest thermalKey lineA) = none →
        (astroParse reasoning envA).thermal_cycling = envA.thermal_cycling)) ∧
    (((splitOnChar '\n' reasoning).filter (fun l => containsSeq adjustMarker l)).head? =
        some lineH →
      (containsSeq radiationKey lineH = true →
        pyFloat (fieldTokenComma radiationKey lineH) = none →
        hackParse reasoning envH = envH) ∧
      (containsSeq tempKey lineH = true →
        pyFloat (fieldTokenWs tempKey lineH) = none →
        (hackParse reasoning envH).temp_cycling = envH.temp_cycling)) := by
  constructor
  · intro hhead
    rcases hfil : (splitOnChar '\n' reasoning).filter
        (fun l => containsSeq recommendMarker l) with _ | ⟨l0, rest⟩
    · rw [hfil] at hhead
      exact absurd hhead (by simp)
    · rw [hfil] at hhead
      have hl0 : l0 = lineA := by simpa using hhead
      subst hl0
      cases hg : containsSeq recommendMarker reasoning
      · rw [astroParse_no_marker reasoning envA hg]
        exact ⟨fun _ _ => rfl, fun _ _ => ⟨rfl, rfl⟩, fun _ _ => rfl⟩
      · rw [astroParse_line reasoning envA l0 rest hg hfil]
        exact ⟨fun hk hf => applyRecommend_ion_fail l0 envA hk hf,
          fun hk hf => applyRecommend_volt_fail l0 envA hk hf,
          fun hk hf => applyRecommend_therm_fail l0 envA hk hf⟩
  · intro hhead
    rcases hfil : (splitOnChar '\n' reasoning).filter
        (fun l => containsSeq adjustMarker l) with _ | ⟨l0, rest⟩
    · rw [hfil] at hhead
      exact absurd hhead (by simp)
    · rw [hfil] at hhead
      have hl0 : l0 = lineH := by simpa using hhead
      subst hl0
      cases hg : containsSeq adjustMarker reasoning
      · rw [hackParse_no_marker reasoning envH hg]
        exact ⟨fun _ _ => rfl, fun _ _ => rfl⟩
      · rw [hackParse_line reasoning envH l0 rest hg hfil]
        exact ⟨fun hk hf => applyAdjust_rad_fail l0 envH hk hf,
          fun hk hf => applyAdjust_temp_fail l0 envH hk hf⟩

/-- Witness for the amended C1 on `textC1` (voltage conversion fails,
voltage and thermal fields keep their pre-parse values). -/
theorem claim_C1_witness :
    ((splitOnChar '\n' textC1).filter (fun l => containsSeq recommendMarker l)).head? =
      some textC1 ∧
    containsSeq voltageKey textC1 = true ∧
    pyFloat (fieldTokenComma voltageKey textC1) = none ∧
    ((astroParse textC1 initMissionEnvironment).voltage = initMissionEnvironment.voltage ∧
     (astroParse textC1 initMissionEnvironment).thermal_cycling =
       initMissionEnvironment.thermal_cycling) := by
  have hf : pyFloat (fieldTokenComma voltageKey textC1) = none := by
    rw [pyFloat, show pyFloatParts (fieldTokenComma voltageKey textC1) = none by decide]
    rfl
  exact ⟨by decide, by decide, hf,
    ((claim_C1_amended textC1 initMissionEnvironment initSpaceEnvironment textC1
      textC1).1 (by decide)).2.1 (by decide) hf⟩

/-- C4, counterexample: on `textC4a` the astrocycle parser does not apply
the `thermal` value `0.5` (the conversion of `"0.5 to reduce stress"`
fails), contradicting the claim that trailing commentary after the last
numeric value never prevents the adjustment. -/
theorem claim_C4_counterexample :
    containsSeq thermalKey textC4a = true ∧
    pyFloat (fieldTokenRest thermalKey textC4a) = none ∧
    (astroParse textC4a initMissionEnvironment).thermal_cycling = 1.0 ∧
    (1.0 : ℚ) ≠ 1.0 * 0.5 := by
  have hf : pyFloat (fieldTokenRest thermalKey textC4a) = none := by
    rw [pyFloat, show pyFloatParts (fieldTokenRest thermalKey textC4a) = none by decide]
    rfl
  refine ⟨by decide, hf, ?_, by norm_num⟩
  have h0 : containsSeq recommendMarker textC4a = true := by decide
  have h1 : (splitOnChar '\n' textC4a).filter (fun l => containsSeq recommendMarker l) =
      [textC4a] := by decide
  rw [astroParse_line textC4a initMissionEnvironment textC4a [] h0 h1]
  have := applyRecommend_therm_fail textC4a initMissionEnvironment (by decide) hf
  rw [this]
  norm_num [initMissionEnvironment]

/-- C4, amended: the hackathon parser tolerates whitespace-separated
trailing commentary after its final (`temp=`) value because it takes the
first whitespace-delimited token; the astrocycle parser does not — on its
final (`thermal=`) field, commentary after the number makes the conversion
fail and the thermal adjustment is skipped, while the earlier
comma-terminated fields of the same line are still applied. -/
theorem claim_C4_amended (envH : SpaceEnvironment) (envA : MissionEnvironment) :
    hackParse textC4h envH =
      { envH with radiation_level := envH.radiation_level * 1.2,
                  temp_cycling := envH.temp_cycling * 1.1 } ∧
    astroParse textC4a envA =
      { envA with ion_flux := envA.ion_flux * 1.2, voltage := envA.voltage * 1.1 } := by
  constructor
  · have h0 : containsSeq adjustMarker textC4h = true := by decide
    have h1 : (splitOnChar '\n' textC4h).filter (fun l => containsSeq adjustMarker l) =
        [textC4h] := by decide
    have h3 : pyFloatParts (fieldTokenComma radiationKey textC4h) =
        some (false, ['1'], ['2'], 0) := by decide
    have h5 : pyFloatParts (fieldTokenWs tempKey textC4h) =
        some (false, ['1'], ['1'], 0) := by decide
    rw [hackParse_line textC4h envH textC4h [] h0 h1]
    simp only [applyAdjust, pyFloat, h3, h5, Option.map_some']
    norm_num [partsVal,
      show containsSeq radiationKey textC4h = true by decide,
      show containsSeq tempKey textC4h = true by decide,
      show digitsToNat ['1'] = 1 by decide, show digitsToNat ['2'] = 2 by decide]
  · have h0 : containsSeq recommendMarker textC4a = true := by decide
    have h1 : (splitOnChar '\n' textC4a).filter (fun l => containsSeq recommendMarker l) =
        [textC4a] := by decide
    have h3 : pyFloatParts (fieldTokenComma ionFluxKey textC4a) =
        some (false, ['1'], ['2'], 0) := by decide
    have h5 : pyFloatParts (fieldTokenComma voltageKey textC4a) =
        some (false, ['1'], ['1'], 0) := by decide
    have h7 : pyFloatParts (fieldTokenRest thermalKey textC4a) = none := by decide
    rw [astroParse_line textC4a envA textC4a [] h0 h1]
    simp only [applyRecommend, pyFloat, h3, h5, h7, Option.map_some', Option.map_none']
    norm_num [partsVal,
      show containsSeq ionFluxKey textC4a = true by decide,
      show containsSeq voltageKey textC4a = true by decide,
      show containsSeq thermalKey textC4a = true by decide,
      show digitsToNat ['1'] = 1 by decide, show digitsToNat ['2'] = 2 by decide]

/-! ## Degradation update lemmas -/

/-- Monotonicity of the astrocycle update: under non-negative state and
environment, no damage variable decreases and the cycle counter increases
by exactly 1. -/
theorem astro_update_monotone (e : IonThrusterElectrode)
    (ion_flux voltage thermal_cycling mission_hours : ℚ)
    (h1 : 0 ≤ e.sputtering_depth) (h2 : 0 ≤ e.surface_roughness)
    (h3 : 0 ≤ e.microcracks) (h4 : 0 ≤ e.thermal_stress)
    (h5 : 0 ≤ e.hot_spot_formation) (h6 : 0 ≤ e.electrical_resistance)
    (h7 : 0 ≤ e.arc_discharge_risk) (h8 : 0 ≤ e.thrust_efficiency_loss)
    (hf : 0 ≤ ion_flux) (hv : 0 ≤ voltage) (ht : 0 ≤ thermal_cycling) :
    e.sputtering_depth ≤
      (e.apply_degradation ion_flux voltage thermal_cycling mission_hours).sputtering_depth ∧
    e.surface_roughness ≤
      (e.apply_degradation ion_flux voltage thermal_cycling mission_hours).surface_roughness ∧
    e.microcracks ≤
      (e.apply_degradation ion_flux voltage thermal_cycling mission_hours).microcracks ∧
    e.thermal_stress ≤
      (e.apply_degradation ion_flux voltage thermal_cycling mission_hours).thermal_stress ∧
    e.hot_spot_formation ≤
      (e.apply_degradation ion_flux voltage thermal_cycling mission_hours).hot_spot_formation ∧
    e.electrical_resistance ≤
      (e.apply_degradation ion_flux voltage thermal_cycling mission_hours).electrical_resistance ∧
    e.arc_discharge_risk ≤
      (e.apply_degradation ion_flux voltage thermal_cycling mission_hours).arc_discharge_risk ∧
    e.thrust_efficiency_loss ≤
      (e.apply_degradation ion_flux voltage thermal_cycling mission_hours).thrust_efficiency_loss ∧
    (e.apply_degradation ion_flux voltage thermal_cycling mission_hours).cycle_count =
      e.cycle_count + 1 := by
  simp only [IonThrusterElectrode.apply_degradation]
  set sr := ion_flux * 0.015 * (1 + e.surface_roughness * 0.3) with hsr_def
  set sput := e.sputtering_depth + sr with hsput_def
  set rough := e.surface_roughness + sr * 0.8 * (1 + e.thermal_stress * 0.5) with hrough_def
  set cg := thermal_cycling * 0.018 * (1 + sput * 0.4) with hcg_def
  set micro := e.microcracks + cg with hmicro_def
  set hot := e.hot_spot_formation + micro * rough * 0.025 with hhot_def
  set ri := micro * 0.08 + sput * 0.05 + hot * 0.12 with hri_def
  set res := e.electrical_resistance + ri with hres_def
  clear_value sr sput rough cg micro hot ri res
  have hsr : 0 ≤ sr := by
    rw [hsr_def]
    have := mul_nonneg h2 (show (0:ℚ) ≤ 0.3 by norm_num)
    exact mul_nonneg (mul_nonneg hf (by norm_num)) (by linarith)
  have hsput : 0 ≤ sput := by rw [hsput_def]; linarith
  have hroughinc : 0 ≤ sr * 0.8 * (1 + e.thermal_stress * 0.5) := by
    have t2 := mul_nonneg h4 (show (0:ℚ) ≤ 0.5 by norm_num)
    exact mul_nonneg (mul_nonneg hsr (by norm_num)) (by linarith)
  have hrough : 0 ≤ rough := by rw [hrough_def]; linarith
  have hcg : 0 ≤ cg := by
    rw [hcg_def]
    have t3 := mul_nonneg hsput (show (0:ℚ) ≤ 0.4 by norm_num)
    exact mul_nonneg (mul_nonneg ht (by norm_num)) (by linarith)
  have hmicro : 0 ≤ micro := by rw [hmicro_def]; linarith
  have htsinc : 0 ≤ thermal_cycling * 0.02 * (1 + micro * 1.2) := by
    have t4 := mul_nonneg hmicro (show (0:ℚ) ≤ 1.2 by norm_num)
    exact mul_nonneg (mul_nonneg ht (by norm_num)) (by linarith)
  have hhotinc : 0 ≤ micro * rough * 0.025 :=
    mul_nonneg (mul_nonneg hmicro hrough) (by norm_num)
  have hhot : 0 ≤ hot := by rw [hhot_def]; linarith
  have hri : 0 ≤ ri := by
    rw [hri_def]
    have a := mul_nonneg hmicro (show (0:ℚ) ≤ 0.08 by norm_num)
    have b := mul_nonneg hsput (show (0:ℚ) ≤ 0.05 by norm_num)
    have c := mul_nonneg hhot (show (0:ℚ) ≤ 0.12 by norm_num)
    linarith
  have hres : 0 ≤ res := by rw [hres_def]; linarith
  have harcinc : 0 ≤ voltage * res * 0.01 + hot * 0.15 := by
    have a := mul_nonneg (mul_nonneg hv hres) (show (0:ℚ) ≤ 0.01 by norm_num)
    have b := mul_nonneg hhot (show (0:ℚ) ≤ 0.15 by norm_num)
    linarith
  have heffinc : 0 ≤ sput * 0.02 + res * 0.015 + rough * 0.01 := by
    have a := mul_nonneg hsput (show (0:ℚ) ≤ 0.02 by norm_num)
    have b := mul_nonneg hres (show (0:ℚ) ≤ 0.015 by norm_num)
    have c := mul_nonneg hrough (show (0:ℚ) ≤ 0.01 by norm_num)
    linarith
  refine ⟨by linarith, by linarith, by linarith, by linarith, by linarith,
    by linarith, by linarith, by linarith, by simp⟩

/-- Monotonicity of the hackathon update: under non-negative state and
environment, neither damage variable decreases and the cycle counter
increases by exactly 1 (only `conductivity_drift` may decrease). -/
theorem hack_update_monotone (s : MaterialState) (radiation_level temp_cycling : ℚ)
    (h1 : 0 ≤ s.defect_density) (h2 : 0 ≤ s.thermal_stress)
    (hr : 0 ≤ radiation_level) (ht : 0 ≤ temp_cycling) :
    s.defect_density ≤ (s.apply_degradation radiation_level temp_cycling).defect_density ∧
    s.thermal_stress ≤ (s.apply_degradation radiation_level temp_cycling).thermal_stress ∧
    (s.apply_degradation radiation_level temp_cycling).cycle_count = s.cycle_count + 1 := by
  simp only [MaterialState.apply_degradation]
  set dinc := radiation_level * 0.008 * (1 + s.thermal_stress) with hdinc_def
  have hdinc : 0 ≤ dinc := by
    rw [hdinc_def]
    exact mul_nonneg (mul_nonneg hr (by norm_num)) (by linarith)
  set defect := s.defect_density + dinc with hdefect_def
  have hdefect : 0 ≤ defect := by rw [hdefect_def]; linarith
  have htinc : 0 ≤ temp_cycling * 0.012 * (1 + defect * 0.5) := by
    have := mul_nonneg hdefect (show (0:ℚ) ≤ 0.5 by norm_num)
    exact mul_nonneg (mul_nonneg ht (by norm_num)) (by linarith)
  refine ⟨by linarith, by linarith, by simp⟩

theorem apply_degradation_flag_mono (e : IonThrusterElectrode) (f v t m : ℚ)
    (h : e.critical_failure = true) :
    (e.apply_degradation f v t m).critical_failure = true := by
  simp only [IonThrusterElectrode.apply_degradation]
  split
  · rfl
  · exact h

theorem applyMany_flag_mono : ∀ (inputs : List (ℚ × ℚ × ℚ × ℚ)) (e : IonThrusterElectrode),
    e.critical_failure = true → (e.applyMany inputs).critical_failure = true := by
  intro inputs
  induction inputs with
  | nil => intro e h; exact h
  | cons p rest ih =>
    intro e h
    obtain ⟨f, v, t, m⟩ := p
    exact ih (e.apply_degradation f v t m) (apply_degradation_flag_mono e f v t m h)

/-- C2: under non-negative state variables and non-negative environment
multipliers, one Degradation Update leaves every damage-accumulating
variable at or above its pre-call value and increments the cycle counter
by exactly 1, in both scripts; only `conductivity_drift` (hackathon) may
decrease. -/
theorem claim_C2 :
    (∀ (e : IonThrusterElectrode) (ion_flux voltage thermal_cycling mission_hours : ℚ),
      0 ≤ e.sputtering_depth → 0 ≤ e.surface_roughness → 0 ≤ e.microcracks →
      0 ≤ e.thermal_stress → 0 ≤ e.hot_spot_formation → 0 ≤ e.electrical_resistance →
      0 ≤ e.arc_discharge_risk → 0 ≤ e.thrust_efficiency_loss →
      0 ≤ ion_flux → 0 ≤ voltage → 0 ≤ thermal_cycling →
      e.sputtering_depth ≤
        (e.apply_degradation ion_flux voltage thermal_cycling mission_hours).sputtering_depth ∧
      e.surface_roughness ≤
        (e.apply_degradation ion_flux voltage thermal_cycling mission_hours).surface_roughness ∧
      e.microcracks ≤
        (e.apply_degradation ion_flux voltage thermal_cycling mission_hours).microcracks ∧
      e.thermal_stress ≤
        (e.apply_degradation ion_flux voltage thermal_cycling mission_hours).thermal_stress ∧
      e.hot_spot_formation ≤
        (e.apply_degradation ion_flux voltage thermal_cycling mission_hours).hot_spot_formation ∧
      e.electrical_resistance ≤
        (e.apply_degradation ion_flux voltage thermal_cycling mission_hours).electrical_resistance ∧
      e.arc_discharge_risk ≤
        (e.apply_degradation ion_flux voltage thermal_cycling mission_hours).arc_discharge_risk ∧
      e.thrust_efficiency_loss ≤
        (e.apply_degradation ion_flux voltage thermal_cycling mission_hours).thrust_efficiency_loss ∧
      (e.apply_degradation ion_flux voltage thermal_cycling mission_hours).cycle_count =
        e.cycle_count + 1) ∧
    (∀ (s : MaterialState) (radiation_level temp_cycling : ℚ),
      0 ≤ s.defect_density → 0 ≤ s.thermal_stress →
      0 ≤ radiation_level → 0 ≤ temp_cycling →
      s.defect_density ≤ (s.apply_degradation radiation_level temp_cycling).defect_density ∧
      s.thermal_stress ≤ (s.apply_degradation radiation_level temp_cycling).thermal_stress ∧
      (s.apply_degradation radiation_level temp_cycling).cycle_count = s.cycle_count + 1) :=
  ⟨fun e a b c d h1 h2 h3 h4 h5 h6 h7 h8 hf hv ht =>
    astro_update_monotone e a b c d h1 h2 h3 h4 h5 h6 h7 h8 hf hv ht,
   fun s r t h1 h2 hr htc => hack_update_monotone s r t h1 h2 hr htc⟩

/-- Witness for C2 at the initial states with baseline multipliers. -/
theorem claim_C2_witness :
    ((0:ℚ) ≤ initElectrode.sputtering_depth ∧ (0:ℚ) ≤ initElectrode.surface_roughness ∧
     (0:ℚ) ≤ initElectrode.microcracks ∧ (0:ℚ) ≤ initElectrode.thermal_stress ∧
     (0:ℚ) ≤ initElectrode.hot_spot_formation ∧ (0:ℚ) ≤ initElectrode.electrical_resistance ∧
     (0:ℚ) ≤ initElectrode.arc_discharge_risk ∧ (0:ℚ) ≤ initElectrode.thrust_efficiency_loss ∧
     (0:ℚ) ≤ initMaterialState.defect_density ∧ (0:ℚ) ≤ initMaterialState.thermal_stress ∧
     (0:ℚ) ≤ (1:ℚ)) ∧
    (initElectrode.sputtering_depth ≤
        (initElectrode.apply_degradation 1 1 1 100).sputtering_depth ∧
      initElectrode.surface_roughness ≤
        (initElectrode.apply_degradation 1 1 1 100).surface_roughness ∧
      initElectrode.microcracks ≤
        (initElectrode.apply_degradation 1 1 1 100).microcracks ∧
      initElectrode.thermal_stress ≤
        (initElectrode.apply_degradation 1 1 1 100).thermal_stress ∧
      initElectrode.hot_spot_formation ≤
        (initElectrode.apply_degradation 1 1 1 100).hot_spot_formation ∧
      initElectrode.electrical_resistance ≤
        (initElectrode.apply_degradation 1 1 1 100).electrical_resistance ∧
      initElectrode.arc_discharge_risk ≤
        (initElectrode.apply_degradation 1 1 1 100).arc_discharge_risk ∧
      initElectrode.thrust_efficiency_loss ≤
        (initElectrode.apply_degradation 1 1 1 100).thrust_efficiency_loss ∧
      (initElectrode.apply_degradation 1 1 1 100).cycle_count =
        initElectrode.cycle_count + 1) ∧
    (initMaterialState.defect_density ≤
        (initMaterialState.apply_degradation 1 1).defect_density ∧
      initMaterialState.thermal_stress ≤
        (initMaterialState.apply_degradation 1 1).thermal_stress ∧
      (initMaterialState.apply_degradation 1 1).cycle_count =
        initMaterialState.cycle_count + 1) := by
  refine ⟨?_, ?_, ?_⟩
  · norm_num [initElectrode, initMaterialState]
  · exact claim_C2.1 initElectrode 1 1 1 100
      (by norm_num [initElectrode]) (by norm_num [initElectrode])
      (by norm_num [initElectrode]) (by norm_num [initElectrode])
      (by norm_num [initElectrode]) (by norm_num [initElectrode])
      (by norm_num [initElectrode]) (by norm_num [initElectrode])
      (by norm_num) (by norm_num) (by norm_num)
  · exact claim_C2.2 initMaterialState 1 1
      (by norm_num [initMaterialState]) (by norm_num [initMaterialState])
      (by norm_num) (by norm_num)

/-- C3: one Degradation Update leaves the terminal flag false whenever none
of the threshold predicates hold on the updated state and it was false
before; once true, it stays true across every sequence of subsequent
calls. -/
theorem claim_C3 (e : IonThrusterElectrode)
    (ion_flux voltage thermal_cycling mission_hours : ℚ) :
    (e.critical_failure = false →
      ¬((e.apply_degradation ion_flux voltage thermal_cycling mission_hours).arc_discharge_risk
          > 0.7 ∨
        (e.apply_degradation ion_flux voltage thermal_cycling mission_hours).sputtering_depth
          > 50.0 ∨
        (e.apply_degradation ion_flux voltage thermal_cycling mission_hours).thrust_efficiency_loss
          > 0.3) →
      (e.apply_degradation ion_flux voltage thermal_cycling mission_hours).critical_failure =
        false) ∧
    (∀ inputs : List (ℚ × ℚ × ℚ × ℚ), e.critical_failure = true →
      (e.applyMany inputs).critical_failure = true) := by
  constructor
  · intro hflag hn
    simp only [IonThrusterElectrode.apply_degradation] at hn ⊢
    rw [if_neg hn]
    exact hflag
  · intro inputs h
    exact applyMany_flag_mono inputs e h

/-- Witness for C3: the first baseline cycle stays below every threshold
and keeps the flag false; a tripped flag survives a further update. -/
theorem claim_C3_witness :
    initElectrode.critical_failure = false ∧
    ¬((initElectrode.apply_degradation 1 1 1 100).arc_discharge_risk > 0.7 ∨
      (initElectrode.apply_degradation 1 1 1 100).sputtering_depth > 50.0 ∨
      (initElectrode.apply_degradation 1 1 1 100).thrust_efficiency_loss > 0.3) ∧
    (initElectrode.apply_degradation 1 1 1 100).critical_failure = false ∧
    ({ initElectrode with critical_failure := true } : IonThrusterElectrode).critical_failure
      = true ∧
    (({ initElectrode with critical_failure := true } : IonThrusterElectrode).applyMany
      [(1, 1, 1, 100)]).critical_failure = true := by
  have hn : ¬((initElectrode.apply_degradation 1 1 1 100).arc_discharge_risk > 0.7 ∨
      (initElectrode.apply_degradation 1 1 1 100).sputtering_depth > 50.0 ∨
      (initElectrode.apply_degradation 1 1 1 100).thrust_efficiency_loss > 0.3) := by
    norm_num [IonThrusterElectrode.apply_degradation, initElectrode]
  exact ⟨rfl, hn, (claim_C3 initElectrode 1 1 1 100).1 rfl hn, rfl,
    (claim_C3 { initElectrode with critical_failure := true } 1 1 1 100).2
      [(1, 1, 1, 100)] rfl⟩

/-- C9: the astrocycle Degradation Update ignores its `mission_hours`
argument — two calls differing only there produce identical states
(noninterference). -/
theorem claim_C9 (e : IonThrusterElectrode)
    (ion_flux voltage thermal_cycling hours₁ hours₂ : ℚ) :
    e.apply_degradation ion_flux voltage thermal_cycling hours₁ =
      e.apply_degradation ion_flux voltage thermal_cycling hours₂ := rfl

/-! ## Driver loop lemmas -/

theorem astroIter_succ (oracle : ℕ → List Char) (k i : ℕ)
    (p : IonThrusterElectrode × MissionEnvironment) :
    astroIter oracle (k + 1) i p =
      astroIter oracle k (i + 1) (runBrainCycleAstro (oracle i) p.1 p.2) := rfl

theorem astroIter_add (oracle : ℕ → List Char) :
    ∀ (j d i : ℕ) (p : IonThrusterElectrode × MissionEnvironment),
    astroIter oracle (j + d) i p = astroIter oracle d (i + j) (astroIter oracle j i p) := by
  intro j
  induction j with
  | zero => intro d i p; simp [astroIter]
  | succ j ih =>
    intro d i p
    rw [show j + 1 + d = (j + d) + 1 by omega]
    rw [astroIter_succ, astroIter_succ, ih]
    rw [show i + 1 + j = i + (j + 1) by omega]

theorem astroIter_flag_mono (oracle : ℕ → List Char) :
    ∀ (k i : ℕ) (p : IonThrusterElectrode × MissionEnvironment),
    p.1.critical_failure = true → (astroIter oracle k i p).1.critical_failure = true := by
  intro k
  induction k with
  | zero => intro i p h; exact h
  | succ k ih =>
    intro i p h
    rw [astroIter_succ]
    exact ih (i + 1) (runBrainCycleAstro (oracle i) p.1 p.2)
      (apply_degradation_flag_mono p.1 p.2.ion_flux p.2.voltage p.2.thermal_cycling
        p.2.mission_hours h)

theorem astroIter_flag_le_mono (oracle : ℕ → List Char) (j k i : ℕ)
    (p : IonThrusterElectrode × MissionEnvironment) (hjk : j ≤ k)
    (h : (astroIter oracle j i p).1.critical_failure = true) :
    (astroIter oracle k i p).1.critical_failure = true := by
  obtain ⟨d, rfl⟩ := Nat.le.dest hjk
  rw [astroIter_add]
  exact astroIter_flag_mono oracle d (i + j) _ h

theorem astroLoop_complete (oracle : ℕ → List Char) :
    ∀ (fuel i : ℕ) (p : IonThrusterElectrode × MissionEnvironment)
      (hist : List ElectrodeSnapshot) (u : ℕ),
    (∀ j, j < fuel → (astroIter oracle j i p).1.critical_failure = false) →
    (astroLoop oracle fuel i p.1 p.2 hist u).status = .completed ∧
    (astroLoop oracle fuel i p.1 p.2 hist u).cycle_history.length = hist.length + fuel ∧
    (astroLoop oracle fuel i p.1 p.2 hist u).update_calls = u + fuel ∧
    (astroLoop oracle fuel i p.1 p.2 hist u).electrode = (astroIter oracle fuel i p).1 := by
  intro fuel
  induction fuel with
  | zero => intro i p hist u _; exact ⟨rfl, rfl, rfl, rfl⟩
  | succ fuel ih =>
    intro i p hist u hflags
    have h0 : p.1.critical_failure = false := hflags 0 (Nat.succ_pos fuel)
    rw [astroLoop, if_neg (by simp [h0])]
    have hstep := ih (i + 1) (runBrainCycleAstro (oracle i) p.1 p.2)
      (hist ++ [(runBrainCycleAstro (oracle i) p.1 p.2).1.to_dict]) (u + 1)
      (fun j hj => by
        rw [← astroIter_succ]
        exact hflags (j + 1) (by omega))
    refine ⟨hstep.1, ?_, ?_, ?_⟩
    · rw [hstep.2.1]; simp; omega
    · rw [hstep.2.2.1]; omega
    · rw [hstep.2.2.2, ← astroIter_succ]

theorem astroLoop_early (oracle : ℕ → List Char) :
    ∀ (j fuel i : ℕ) (p : IonThrusterElectrode × MissionEnvironment)
      (hist : List ElectrodeSnapshot) (u : ℕ),
    j < fuel →
    (∀ j', j' < j → (astroIter oracle j' i p).1.critical_failure = false) →
    (astroIter oracle j i p).1.critical_failure = true →
    (astroLoop oracle fuel i p.1 p.2 hist u).status = .terminatedEarly ∧
    (astroLoop oracle fuel i p.1 p.2 hist u).cycle_history.length = hist.length + j ∧
    (astroLoop oracle fuel i p.1 p.2 hist u).update_calls = u + j := by
  intro j
  induction j with
  | zero =>
    intro fuel i p hist u hfuel _ hcur
    obtain ⟨fuel', rfl⟩ : ∃ fuel', fuel = fuel' + 1 :=
      ⟨fuel - 1, by omega⟩
    rw [astroLoop, if_pos (by exact hcur)]
    exact ⟨rfl, by simp, by simp⟩
  | succ j ih =>
    intro fuel i p hist u hfuel hprev hcur
    obtain ⟨fuel', rfl⟩ : ∃ fuel', fuel = fuel' + 1 := ⟨fuel - 1, by omega⟩
    have h0 : p.1.critical_failure = false := hprev 0 (Nat.succ_pos j)
    rw [astroLoop, if_neg (by simp [h0])]
    have hstep := ih fuel' (i + 1) (runBrainCycleAstro (oracle i) p.1 p.2)
      (hist ++ [(runBrainCycleAstro (oracle i) p.1 p.2).1.to_dict]) (u + 1)
      (by omega)
      (fun j' hj' => by
        rw [← astroIter_succ]
        exact hprev (j' + 1) (by omega))
      (by rw [← astroIter_succ]; exact hcur)
    refine ⟨hstep.1, ?_, ?_⟩
    · rw [hstep.2.1]; simp; omega
    · rw [hstep.2.2]; omega

theorem hackLoop_spec (oracle : ℕ → List Char) :
    ∀ (fuel i : ℕ) (s : MaterialState) (env : SpaceEnvironment)
      (hist : List MaterialSnapshot) (u : ℕ),
    (hackLoop oracle fuel i s env hist u).status = .completed ∧
    (hackLoop oracle fuel i s env hist u).cycle_history.length = hist.length + fuel ∧
    (hackLoop oracle fuel i s env hist u).update_calls = u + fuel := by
  intro fuel
  induction fuel with
  | zero => intro i s env hist u; exact ⟨rfl, rfl, rfl⟩
  | succ fuel ih =>
    intro i s env hist u
    rw [hackLoop]
    have hstep := ih (i + 1) (runBrainCycleHack (oracle i) s env).1
      (runBrainCycleHack (oracle i) s env).2
      (hist ++ [(runBrainCycleHack (oracle i) s env).1.to_dict]) (u + 1)
    refine ⟨hstep.1, ?_, ?_⟩
    · rw [hstep.2.1]; simp; omega
    · rw [hstep.2.2]; omega

/-- C7: a run of the astrocycle driver in which no terminal threshold is
crossed within its 15 updates appends exactly 15 history records, counts
15 update calls and completes; the hackathon driver (no terminal flag)
always appends exactly its 10 records and completes. -/
theorem claim_C7 (oracle oracleH : ℕ → List Char)
    (h : (astroIter oracle 15 0 (initElectrode, initMissionEnvironment)).1.critical_failure
      = false) :
    (runSimulationAstro oracle).cycle_history.length = 15 ∧
    (runSimulationAstro oracle).status = .completed ∧
    (runSimulationAstro oracle).update_calls = 15 ∧
    (runSimulationHack oracleH).cycle_history.length = 10 ∧
    (runSimulationHack oracleH).status = .completed := by
  have hall : ∀ j, j < 15 →
      (astroIter oracle j 0 (initElectrode, initMissionEnvironment)).1.critical_failure
        = false := by
    intro j hj
    by_contra hne
    have htrue : (astroIter oracle j 0
        (initElectrode, initMissionEnvironment)).1.critical_failure = true := by
      simpa using hne
    have h15 := astroIter_flag_le_mono oracle j 15 0
      (initElectrode, initMissionEnvironment) (by omega) htrue
    rw [h] at h15
    exact absurd h15 (by simp)
  have hc := astroLoop_complete oracle 15 0 (initElectrode, initMissionEnvironment) [] 0 hall
  have hh := hackLoop_spec oracleH 10 0 initMaterialState initSpaceEnvironment [] 0
  exact ⟨by simpa using hc.2.1, hc.1, by simpa using hc.2.2.1,
    by simpa using hh.2.1, hh.1⟩

/-- C8: if the astrocycle run's terminal flag first becomes true during
iteration k with k < 15, the driver stops with exactly k history records,
ends terminated-early, and invokes Degradation Update exactly k times. -/
theorem claim_C8 (oracle : ℕ → List Char) (k : ℕ) (hk1 : 1 ≤ k) (hk15 : k < 15)
    (hprev : (astroIter oracle (k - 1) 0
      (initElectrode, initMissionEnvironment)).1.critical_failure = false)
    (hcur : (astroIter oracle k 0
      (initElectrode, initMissionEnvironment)).1.critical_failure = true) :
    (runSimulationAstro oracle).cycle_history.length = k ∧
    (runSimulationAstro oracle).status = .terminatedEarly ∧
    (runSimulationAstro oracle).update_calls = k := by
  have hall : ∀ j', j' < k →
      (astroIter oracle j' 0 (initElectrode, initMissionEnvironment)).1.critical_failure
        = false := by
    intro j' hj'
    by_contra hne
    have htrue : (astroIter oracle j' 0
        (initElectrode, initMissionEnvironment)).1.critical_failure = true := by
      simpa using hne
    have hk1' := astroIter_flag_le_mono oracle j' (k - 1) 0
      (initElectrode, initMissionEnvironment) (by omega) htrue
    rw [hprev] at hk1'
    exact absurd hk1' (by simp)
  have he := astroLoop_early oracle k 15 0 (initElectrode, initMissionEnvironment) [] 0
    hk15 hall hcur
  exact ⟨by simpa using he.2.1, he.1, by simpa using he.2.2⟩

/-! ## Witness-run evaluations for C7 and C8 -/

theorem astroParse_zero (env : MissionEnvironment) :
    astroParse textZero env =
      { env with ion_flux := env.ion_flux * 0, voltage := env.voltage * 0,
                 thermal_cycling := env.thermal_cycling * 0 } := by
  have h0 : containsSeq recommendMarker textZero = true := by decide
  have h1 : (splitOnChar '\n' textZero).filter (fun l => containsSeq recommendMarker l) =
      [textZero] := by decide
  have h3 : pyFloatParts (fieldTokenComma ionFluxKey textZero) =
      some (false, ['0'], ['0'], 0) := by decide
  have h5 : pyFloatParts (fieldTokenComma voltageKey textZero) =
      some (false, ['0'], ['0'], 0) := by decide
  have h7 : pyFloatParts (fieldTokenRest thermalKey textZero) =
      some (false, ['0'], ['0'], 0) := by decide
  rw [astroParse_line textZero env textZero [] h0 h1]
  simp only [applyRecommend, pyFloat, h3, h5, h7, Option.map_some']
  norm_num [partsVal,
    show containsSeq ionFluxKey textZero = true by decide,
    show containsSeq voltageKey textZero = true by decide,
    show containsSeq thermalKey textZero = true by decide,
    show digitsToNat ['0'] = 0 by decide]

theorem astroParse_pump (env : MissionEnvironment) :
    astroParse textPump env =
      { env with ion_flux := env.ion_flux * 30, voltage := env.voltage * 30,
                 thermal_cycling := env.thermal_cycling * 30 } := by
  have h0 : containsSeq recommendMarker textPump = true := by decide
  have h1 : (splitOnChar '\n' textPump).filter (fun l => containsSeq recommendMarker l) =
      [textPump] := by decide
  have h3 : pyFloatParts (fieldTokenComma ionFluxKey textPump) =
      some (false, ['3', '0'], ['0'], 0) := by decide
  have h5 : pyFloatParts (fieldTokenComma voltageKey textPump) =
      some (false, ['3', '0'], ['0'], 0) := by decide
  have h7 : pyFloatParts (fieldTokenRest thermalKey textPump) =
      some (false, ['3', '0'], ['0'], 0) := by decide
  rw [astroParse_line textPump env textPump [] h0 h1]
  simp only [applyRecommend, pyFloat, h3, h5, h7, Option.map_some']
  norm_num [partsVal,
    show containsSeq ionFluxKey textPump = true by decide,
    show containsSeq voltageKey textPump = true by decide,
    show containsSeq thermalKey textPump = true by decide,
    show digitsToNat ['3', '0'] = 30 by decide,
    show digitsToNat ['0'] = 0 by decide]

theorem astroParse_nil (env : MissionEnvironment) : astroParse [] env = env :=
  astroParse_no_marker [] env (by decide)

/-- Exact value of the 15-cycle zero-damped run (used by the C7 witness):
the recommended multiplier 0.0 zeroes the environment after cycle 1 and
the terminal flag never trips. -/
theorem astroIterC7_eval :
    astroIter oracleC7 15 0 (initElectrode, initMissionEnvironment) = (((⟨((609 : ℚ) / 40000), ((623627 : ℚ) / 10000000), ((1905481 : ℚ) / 50000000), ((318216443 : ℚ) / 6250000000), ((43564928198761 : ℚ) / 4000000000000000), ((13450073459596283 : ℚ) / 12500000000000000), ((4180982497709613761 : ℚ) / 50000000000000000000), ((620031662038136811 : ℚ) / 2500000000000000000), 15, false⟩) : IonThrusterElectrode), (⟨(0 : ℚ), (0 : ℚ), (0 : ℚ), (100 : ℚ)⟩ : MissionEnvironment)) := by
  have w15 : astroIter oracleC7 15 0 (initElectrode, initMissionEnvironment) =
      astroIter oracleC7 14 1 (((⟨((609 : ℚ) / 40000), ((623627 : ℚ) / 10000000), ((1905481 : ℚ) / 50000000), ((318216443 : ℚ) / 6250000000), ((201188309399587 : ℚ) / 20000000000000000), ((502508574728198761 : ℚ) / 500000000000000000), ((1538977095376521943 : ℚ) / 25000000000000000000), ((1600338424184596283 : ℚ) / 100000000000000000000), 1, false⟩) : IonThrusterElectrode), (⟨(0 : ℚ), (0 : ℚ), (0 : ℚ), (100 : ℚ)⟩ : MissionEnvironment)) := by
    rw [show (15 : ℕ) = 14 + 1 from rfl, astroIter_succ]
    norm_num [runBrainCycleAstro, astroParse_zero, astroParse_nil,
      IonThrusterElectrode.apply_degradation, initElectrode, initMissionEnvironment, oracleC7]
  have w14 : astroIter oracleC7 14 1 (((⟨((609 : ℚ) / 40000), ((623627 : ℚ) / 10000000), ((1905481 : ℚ) / 50000000), ((318216443 : ℚ) / 6250000000), ((201188309399587 : ℚ) / 20000000000000000), ((502508574728198761 : ℚ) / 500000000000000000), ((1538977095376521943 : ℚ) / 25000000000000000000), ((1600338424184596283 : ℚ) / 100000000000000000000), 1, false⟩) : IonThrusterElectrode), (⟨(0 : ℚ), (0 : ℚ), (0 : ℚ), (100 : ℚ)⟩ : MissionEnvironment)) =
      astroIter oracleC7 13 2 (((⟨((609 : ℚ) / 40000), ((623627 : ℚ) / 10000000), ((1905481 : ℚ) / 50000000), ((318216443 : ℚ) / 6250000000), ((101188309399587 : ℚ) / 10000000000000000), ((505020714384596283 : ℚ) / 500000000000000000), ((394230677850341767 : ℚ) / 6250000000000000000), ((802053316834596283 : ℚ) / 25000000000000000000), 2, false⟩) : IonThrusterElectrode), (⟨(0 : ℚ), (0 : ℚ), (0 : ℚ), (100 : ℚ)⟩ : MissionEnvironment)) := by
    rw [show (14 : ℕ) = 13 + 1 from rfl, astroIter_succ]
    norm_num [runBrainCycleAstro, astroParse_zero, astroParse_nil,
      IonThrusterElectrode.apply_degradation, initElectrode, initMissionEnvironment, oracleC7]
  have w13 : astroIter oracleC7 13 2 (((⟨((609 : ℚ) / 40000), ((623627 : ℚ) / 10000000), ((1905481 : ℚ) / 50000000), ((318216443 : ℚ) / 6250000000), ((101188309399587 : ℚ) / 10000000000000000), ((505020714384596283 : ℚ) / 500000000000000000), ((394230677850341767 : ℚ) / 6250000000000000000), ((802053316834596283 : ℚ) / 25000000000000000000), 2, false⟩) : IonThrusterElectrode), (⟨(0 : ℚ), (0 : ℚ), (0 : ℚ), (100 : ℚ)⟩ : MissionEnvironment)) =
      astroIter oracleC7 12 3 (((⟨((609 : ℚ) / 40000), ((623627 : ℚ) / 10000000), ((1905481 : ℚ) / 50000000), ((318216443 : ℚ) / 6250000000), ((203564928198761 : ℚ) / 20000000000000000), ((253768209484596283 : ℚ) / 250000000000000000), ((3230182270877269511 : ℚ) / 50000000000000000000), ((482363522424596283 : ℚ) / 10000000000000000000), 3, false⟩) : IonThrusterElectrode), (⟨(0 : ℚ), (0 : ℚ), (0 : ℚ), (100 : ℚ)⟩ : MissionEnvironment)) := by
    rw [show (13 : ℕ) = 12 + 1 from rfl, astroIter_succ]
    norm_num [runBrainCycleAstro, astroParse_zero, astroParse_nil,
      IonThrusterElectrode.apply_degradation, initElectrode, initMissionEnvironment, oracleC7]
  have w12 : astroIter oracleC7 12 3 (((⟨((609 : ℚ) / 40000), ((623627 : ℚ) / 10000000), ((1905481 : ℚ) / 50000000), ((318216443 : ℚ) / 6250000000), ((203564928198761 : ℚ) / 20000000000000000), ((253768209484596283 : ℚ) / 250000000000000000), ((3230182270877269511 : ℚ) / 50000000000000000000), ((482363522424596283 : ℚ) / 10000000000000000000), 3, false⟩) : IonThrusterElectrode), (⟨(0 : ℚ), (0 : ℚ), (0 : ℚ), (100 : ℚ)⟩ : MissionEnvironment)) =
      astroIter oracleC7 11 4 (((⟨((609 : ℚ) / 40000), ((623627 : ℚ) / 10000000), ((1905481 : ℚ) / 50000000), ((318216443 : ℚ) / 6250000000), ((51188309399587 : ℚ) / 5000000000000000), ((51005568848198761 : ℚ) / 50000000000000000), ((3306964734976650011 : ℚ) / 50000000000000000000), ((322330749484596283 : ℚ) / 5000000000000000000), 4, false⟩) : IonThrusterElectrode), (⟨(0 : ℚ), (0 : ℚ), (0 : ℚ), (100 : ℚ)⟩ : MissionEnvironment)) := by
    rw [show (12 : ℕ) = 11 + 1 from rfl, astroIter_succ]
    norm_num [runBrainCycleAstro, astroParse_zero, astroParse_nil,
      IonThrusterElectrode.apply_degradation, initElectrode, initMissionEnvironment, oracleC7]
  have w11 : astroIter oracleC7 11 4 (((⟨((609 : ℚ) / 40000), ((623627 : ℚ) / 10000000), ((1905481 : ℚ) / 50000000), ((318216443 : ℚ) / 6250000000), ((51188309399587 : ℚ) / 5000000000000000), ((51005568848198761 : ℚ) / 50000000000000000), ((3306964734976650011 : ℚ) / 50000000000000000000), ((322330749484596283 : ℚ) / 5000000000000000000), 4, false⟩) : IonThrusterElectrode), (⟨(0 : ℚ), (0 : ℚ), (0 : ℚ), (100 : ℚ)⟩ : MissionEnvironment)) =
      astroIter oracleC7 10 5 (((⟨((609 : ℚ) / 40000), ((623627 : ℚ) / 10000000), ((1905481 : ℚ) / 50000000), ((318216443 : ℚ) / 6250000000), ((41188309399587 : ℚ) / 4000000000000000), ((102515704584596283 : ℚ) / 100000000000000000), ((846048203775218909 : ℚ) / 12500000000000000000), ((1615432651692173981 : ℚ) / 20000000000000000000), 5, false⟩) : IonThrusterElectrode), (⟨(0 : ℚ), (0 : ℚ), (0 : ℚ), (100 : ℚ)⟩ : MissionEnvironment)) := by
    rw [show (11 : ℕ) = 10 + 1 from rfl, astroIter_succ]
    norm_num [runBrainCycleAstro, astroParse_zero, astroParse_nil,
      IonThrusterElectrode.apply_degradation, initElectrode, initMissionEnvironment, oracleC7]
  have w10 : astroIter oracleC7 10 5 (((⟨((609 : ℚ) / 40000), ((623627 : ℚ) / 10000000), ((1905481 : ℚ) / 50000000), ((318216443 : ℚ) / 6250000000), ((41188309399587 : ℚ) / 4000000000000000), ((102515704584596283 : ℚ) / 100000000000000000), ((846048203775218909 : ℚ) / 12500000000000000000), ((1615432651692173981 : ℚ) / 20000000000000000000), 5, false⟩) : IonThrusterElectrode), (⟨(0 : ℚ), (0 : ℚ), (0 : ℚ), (100 : ℚ)⟩ : MissionEnvironment)) =
      astroIter oracleC7 9 6 (((⟨((609 : ℚ) / 40000), ((623627 : ℚ) / 10000000), ((1905481 : ℚ) / 50000000), ((318216443 : ℚ) / 6250000000), ((103564928198761 : ℚ) / 10000000000000000), ((515104922292173981 : ℚ) / 500000000000000000), ((1730933255624973193 : ℚ) / 25000000000000000000), ((1214411340667173981 : ℚ) / 12500000000000000000), 6, false⟩) : IonThrusterElectrode), (⟨(0 : ℚ), (0 : ℚ), (0 : ℚ), (100 : ℚ)⟩ : MissionEnvironment)) := by
    rw [show (10 : ℕ) = 9 + 1 from rfl, astroIter_succ]
    norm_num [runBrainCycleAstro, astroParse_zero, astroParse_nil,
      IonThrusterElectrode.apply_degradation, initElectrode, initMissionEnvironment, oracleC7]
  have w9 : astroIter oracleC7 9 6 (((⟨((609 : ℚ) / 40000), ((623627 : ℚ) / 10000000), ((1905481 : ℚ) / 50000000), ((318216443 : ℚ) / 6250000000), ((103564928198761 : ℚ) / 10000000000000000), ((515104922292173981 : ℚ) / 500000000000000000), ((1730933255624973193 : ℚ) / 25000000000000000000), ((1214411340667173981 : ℚ) / 12500000000000000000), 6, false⟩) : IonThrusterElectrode), (⟨(0 : ℚ), (0 : ℚ), (0 : ℚ), (100 : ℚ)⟩ : MissionEnvironment)) =
      astroIter oracleC7 8 7 (((⟨((609 : ℚ) / 40000), ((623627 : ℚ) / 10000000), ((1905481 : ℚ) / 50000000), ((318216443 : ℚ) / 6250000000), ((208318165797109 : ℚ) / 20000000000000000), ((129408721647391327 : ℚ) / 125000000000000000), ((3539985823423862261 : ℚ) / 50000000000000000000), ((2840252021276521943 : ℚ) / 25000000000000000000), 7, false⟩) : IonThrusterElectrode), (⟨(0 : ℚ), (0 : ℚ), (0 : ℚ), (100 : ℚ)⟩ : MissionEnvironment)) := by
    rw [show (9 : ℕ) = 8 + 1 from rfl, astroIter_succ]
    norm_num [runBrainCycleAstro, astroParse_zero, astroParse_nil,
      IonThrusterElectrode.apply_degradation, initElectrode, initMissionEnvironment, oracleC7]
  have w8 : astroIter oracleC7 8 7 (((⟨((609 : ℚ) / 40000), ((623627 : ℚ) / 10000000), ((1905481 : ℚ) / 50000000), ((318216443 : ℚ) / 6250000000), ((208318165797109 : ℚ) / 20000000000000000), ((129408721647391327 : ℚ) / 125000000000000000), ((3539985823423862261 : ℚ) / 50000000000000000000), ((2840252021276521943 : ℚ) / 25000000000000000000), 7, false⟩) : IonThrusterElectrode), (⟨(0 : ℚ), (0 : ℚ), (0 : ℚ), (100 : ℚ)⟩ : MissionEnvironment)) =
      astroIter oracleC7 7 8 (((⟨((609 : ℚ) / 40000), ((623627 : ℚ) / 10000000), ((1905481 : ℚ) / 50000000), ((318216443 : ℚ) / 6250000000), ((26188309399587 : ℚ) / 2500000000000000), ((130042103953788849 : ℚ) / 125000000000000000), ((3618550751622623261 : ℚ) / 50000000000000000000), ((325358150813788849 : ℚ) / 2500000000000000000), 8, false⟩) : IonThrusterElectrode), (⟨(0 : ℚ), (0 : ℚ), (0 : ℚ), (100 : ℚ)⟩ : MissionEnvironment)) := by
    rw [show (8 : ℕ) = 7 + 1 from rfl, astroIter_succ]
    norm_num [runBrainCycleAstro, astroParse_zero, astroParse_nil,
      IonThrusterElectrode.apply_degradation, initElectrode, initMissionEnvironment, oracleC7]
  have w7 : astroIter oracleC7 7 8 (((⟨((609 : ℚ) / 40000), ((623627 : ℚ) / 10000000), ((1905481 : ℚ) / 50000000), ((318216443 : ℚ) / 6250000000), ((26188309399587 : ℚ) / 2500000000000000), ((130042103953788849 : ℚ) / 125000000000000000), ((3618550751622623261 : ℚ) / 50000000000000000000), ((325358150813788849 : ℚ) / 2500000000000000000), 8, false⟩) : IonThrusterElectrode), (⟨(0 : ℚ), (0 : ℚ), (0 : ℚ), (100 : ℚ)⟩ : MissionEnvironment)) =
      astroIter oracleC7 6 9 (((⟨((609 : ℚ) / 40000), ((623627 : ℚ) / 10000000), ((1905481 : ℚ) / 50000000), ((318216443 : ℚ) / 6250000000), ((210694784596283 : ℚ) / 20000000000000000), ((104541101993788849 : ℚ) / 100000000000000000), ((1848780647923114693 : ℚ) / 25000000000000000000), ((2935051052491677339 : ℚ) / 20000000000000000000), 9, false⟩) : IonThrusterElectrode), (⟨(0 : ℚ), (0 : ℚ), (0 : ℚ), (100 : ℚ)⟩ : MissionEnvironment)) := by
    rw [show (7 : ℕ) = 6 + 1 from rfl, astroIter_succ]
    norm_num [runBrainCycleAstro, astroParse_zero, astroParse_nil,
      IonThrusterElectrode.apply_degradation, initElectrode, initMissionEnvironment, oracleC7]
  have w6 : astroIter oracleC7 6 9 (((⟨((609 : ℚ) / 40000), ((623627 : ℚ) / 10000000), ((1905481 : ℚ) / 50000000), ((318216443 : ℚ) / 6250000000), ((210694784596283 : ℚ) / 20000000000000000), ((104541101993788849 : ℚ) / 100000000000000000), ((1848780647923114693 : ℚ) / 25000000000000000000), ((2935051052491677339 : ℚ) / 20000000000000000000), 9, false⟩) : IonThrusterElectrode), (⟨(0 : ℚ), (0 : ℚ), (0 : ℚ), (100 : ℚ)⟩ : MissionEnvironment)) =
      astroIter oracleC7 5 10 (((⟨((609 : ℚ) / 40000), ((623627 : ℚ) / 10000000), ((1905481 : ℚ) / 50000000), ((318216443 : ℚ) / 6250000000), ((21188309399587 : ℚ) / 2000000000000000), ((105049233810186371 : ℚ) / 100000000000000000), ((944254364023670159 : ℚ) / 12500000000000000000), ((817190323480559113 : ℚ) / 5000000000000000000), 10, false⟩) : IonThrusterElectrode), (⟨(0 : ℚ), (0 : ℚ), (0 : ℚ), (100 : ℚ)⟩ : MissionEnvironment)) := by
    rw [show (6 : ℕ) = 5 + 1 from rfl, astroIter_succ]
    norm_num [runBrainCycleAstro, astroParse_zero, astroParse_nil,
      IonThrusterElectrode.apply_degradation, initElectrode, initMissionEnvironment, oracleC7]
  have w5 : astroIter oracleC7 5 10 (((⟨((609 : ℚ) / 40000), ((623627 : ℚ) / 10000000), ((1905481 : ℚ) / 50000000), ((318216443 : ℚ) / 6250000000), ((21188309399587 : ℚ) / 2000000000000000), ((105049233810186371 : ℚ) / 100000000000000000), ((944254364023670159 : ℚ) / 12500000000000000000), ((817190323480559113 : ℚ) / 5000000000000000000), 10, false⟩) : IonThrusterElectrode), (⟨(0 : ℚ), (0 : ℚ), (0 : ℚ), (100 : ℚ)⟩ : MissionEnvironment)) =
      astroIter oracleC7 4 11 (((⟨((609 : ℚ) / 40000), ((623627 : ℚ) / 10000000), ((1905481 : ℚ) / 50000000), ((318216443 : ℚ) / 6250000000), ((213071403395457 : ℚ) / 20000000000000000), ((263895196530559113 : ℚ) / 250000000000000000), ((3856919232367977011 : ℚ) / 50000000000000000000), ((9009995174397268469 : ℚ) / 50000000000000000000), 11, false⟩) : IonThrusterElectrode), (⟨(0 : ℚ), (0 : ℚ), (0 : ℚ), (100 : ℚ)⟩ : MissionEnvironment)) := by
    rw [show (5 : ℕ) = 4 + 1 from rfl, astroIter_succ]
    norm_num [runBrainCycleAstro, astroParse_zero, astroParse_nil,
      IonThrusterElectrode.apply_degradation, initElectrode, initMissionEnvironment, oracleC7]
  have w4 : astroIter oracleC7 4 11 (((⟨((609 : ℚ) / 40000), ((623627 : ℚ) / 10000000), ((1905481 : ℚ) / 50000000), ((318216443 : ℚ) / 6250000000), ((213071403395457 : ℚ) / 20000000000000000), ((263895196530559113 : ℚ) / 250000000000000000), ((3856919232367977011 : ℚ) / 50000000000000000000), ((9009995174397268469 : ℚ) / 50000000000000000000), 11, false⟩) : IonThrusterElectrode), (⟨(0 : ℚ), (0 : ℚ), (0 : ℚ), (100 : ℚ)⟩ : MissionEnvironment)) =
      astroIter oracleC7 3 12 (((⟨((609 : ℚ) / 40000), ((623627 : ℚ) / 10000000), ((1905481 : ℚ) / 50000000), ((318216443 : ℚ) / 6250000000), ((53564928198761 : ℚ) / 5000000000000000), ((265169090999751679 : ℚ) / 250000000000000000), ((3937266624666118511 : ℚ) / 50000000000000000000), ((4925954398698261753 : ℚ) / 25000000000000000000), 12, false⟩) : IonThrusterElectrode), (⟨(0 : ℚ), (0 : ℚ), (0 : ℚ), (100 : ℚ)⟩ : MissionEnvironment)) := by
    rw [show (4 : ℕ) = 3 + 1 from rfl, astroIter_succ]
    norm_num [runBrainCycleAstro, astroParse_zero, astroParse_nil,
      IonThrusterElectrode.apply_degradation, initElectrode, initMissionEnvironment, oracleC7]
  have w3 : astroIter oracleC7 3 12 (((⟨((609 : ℚ) / 40000), ((623627 : ℚ) / 10000000), ((1905481 : ℚ) / 50000000), ((318216443 : ℚ) / 6250000000), ((53564928198761 : ℚ) / 5000000000000000), ((265169090999751679 : ℚ) / 250000000000000000), ((3937266624666118511 : ℚ) / 50000000000000000000), ((4925954398698261753 : ℚ) / 25000000000000000000), 12, false⟩) : IonThrusterElectrode), (⟨(0 : ℚ), (0 : ℚ), (0 : ℚ), (100 : ℚ)⟩ : MissionEnvironment)) =
      astroIter oracleC7 2 13 (((⟨((609 : ℚ) / 40000), ((623627 : ℚ) / 10000000), ((1905481 : ℚ) / 50000000), ((318216443 : ℚ) / 6250000000), ((215448022194631 : ℚ) / 20000000000000000), ((532889535866087251 : ℚ) / 500000000000000000), ((251128727061819071 : ℚ) / 3125000000000000000), ((4279059780478261753 : ℚ) / 20000000000000000000), 13, false⟩) : IonThrusterElectrode), (⟨(0 : ℚ), (0 : ℚ), (0 : ℚ), (100 : ℚ)⟩ : MissionEnvironment)) := by
    rw [show (3 : ℕ) = 2 + 1 from rfl, astroIter_succ]
    norm_num [runBrainCycleAstro, astroParse_zero, astroParse_nil,
      IonThrusterElectrode.apply_degradation, initElectrode, initMissionEnvironment, oracleC7]
  have w2 : astroIter oracleC7 2 13 (((⟨((609 : ℚ) / 40000), ((623627 : ℚ) / 10000000), ((1905481 : ℚ) / 50000000), ((318216443 : ℚ) / 6250000000), ((215448022194631 : ℚ) / 20000000000000000), ((532889535866087251 : ℚ) / 500000000000000000), ((251128727061819071 : ℚ) / 3125000000000000000), ((4279059780478261753 : ℚ) / 20000000000000000000), 13, false⟩) : IonThrusterElectrode), (⟨(0 : ℚ), (0 : ℚ), (0 : ℚ), (100 : ℚ)⟩ : MissionEnvironment)) =
      astroIter oracleC7 1 14 (((⟨((609 : ℚ) / 40000), ((623627 : ℚ) / 10000000), ((1905481 : ℚ) / 50000000), ((318216443 : ℚ) / 6250000000), ((108318165797109 : ℚ) / 10000000000000000), ((107088890932173981 : ℚ) / 100000000000000000), ((2049649128668468443 : ℚ) / 25000000000000000000), ((288680562079673981 : ℚ) / 1250000000000000000), 14, false⟩) : IonThrusterElectrode), (⟨(0 : ℚ), (0 : ℚ), (0 : ℚ), (100 : ℚ)⟩ : MissionEnvironment)) := by
    rw [show (2 : ℕ) = 1 + 1 from rfl, astroIter_succ]
    norm_num [runBrainCycleAstro, astroParse_zero, astroParse_nil,
      IonThrusterElectrode.apply_degradation, initElectrode, initMissionEnvironment, oracleC7]
  have w1 : astroIter oracleC7 1 14 (((⟨((609 : ℚ) / 40000), ((623627 : ℚ) / 10000000), ((1905481 : ℚ) / 50000000), ((318216443 : ℚ) / 6250000000), ((108318165797109 : ℚ) / 10000000000000000), ((107088890932173981 : ℚ) / 100000000000000000), ((2049649128668468443 : ℚ) / 25000000000000000000), ((288680562079673981 : ℚ) / 1250000000000000000), 14, false⟩) : IonThrusterElectrode), (⟨(0 : ℚ), (0 : ℚ), (0 : ℚ), (100 : ℚ)⟩ : MissionEnvironment)) =
      astroIter oracleC7 0 15 (((⟨((609 : ℚ) / 40000), ((623627 : ℚ) / 10000000), ((1905481 : ℚ) / 50000000), ((318216443 : ℚ) / 6250000000), ((43564928198761 : ℚ) / 4000000000000000), ((13450073459596283 : ℚ) / 12500000000000000), ((4180982497709613761 : ℚ) / 50000000000000000000), ((620031662038136811 : ℚ) / 2500000000000000000), 15, false⟩) : IonThrusterElectrode), (⟨(0 : ℚ), (0 : ℚ), (0 : ℚ), (100 : ℚ)⟩ : MissionEnvironment)) := by
    rw [show (1 : ℕ) = 0 + 1 from rfl, astroIter_succ]
    norm_num [runBrainCycleAstro, astroParse_zero, astroParse_nil,
      IonThrusterElectrode.apply_degradation, initElectrode, initMissionEnvironment, oracleC7]
  rw [w15, w14, w13, w12, w11, w10, w9, w8, w7, w6, w5, w4, w3, w2, w1]
  rfl

theorem astroIterC8_two :
    (astroIter oracleC8 2 0 (initElectrode, initMissionEnvironment)).1.critical_failure
      = false := by
  norm_num [astroIter, runBrainCycleAstro, astroParse_pump, oracleC8,
    IonThrusterElectrode.apply_degradation, initElectrode, initMissionEnvironment]

theorem astroIterC8_three :
    (astroIter oracleC8 3 0 (initElectrode, initMissionEnvironment)).1.critical_failure
      = true := by
  norm_num [astroIter, runBrainCycleAstro, astroParse_pump, oracleC8,
    IonThrusterElectrode.apply_degradation, initElectrode, initMissionEnvironment]

/-- Witness for C7: under `oracleC7` no threshold is crossed in 15
updates, the astrocycle run appends 15 records and completes, and a
hackathon run appends its 10 records and completes. -/
theorem claim_C7_witness :
    (astroIter oracleC7 15 0 (initElectrode, initMissionEnvironment)).1.critical_failure
      = false ∧
    ((runSimulationAstro oracleC7).cycle_history.length = 15 ∧
     (runSimulationAstro oracleC7).status = .completed ∧
     (runSimulationAstro oracleC7).update_calls = 15 ∧
     (runSimulationHack (fun _ => [])).cycle_history.length = 10 ∧
     (runSimulationHack (fun _ => [])).status = .completed) := by
  have hflag : (astroIter oracleC7 15 0
      (initElectrode, initMissionEnvironment)).1.critical_failure = false := by
    rw [astroIterC7_eval]
  exact ⟨hflag, claim_C7 oracleC7 (fun _ => []) hflag⟩

/-- Witness for C8: under `oracleC8` the flag first trips during cycle 3,
so the run stops with exactly 3 records, terminated early, after exactly 3
update calls. -/
theorem claim_C8_witness :
    ((1:ℕ) ≤ 3 ∧ (3:ℕ) < 15 ∧
     (astroIter oracleC8 (3 - 1) 0
       (initElectrode, initMissionEnvironment)).1.critical_failure = false ∧
     (astroIter oracleC8 3 0
       (initElectrode, initMissionEnvironment)).1.critical_failure = true) ∧
    ((runSimulationAstro oracleC8).cycle_history.length = 3 ∧
     (runSimulationAstro oracleC8).status = .terminatedEarly ∧
     (runSimulationAstro oracleC8).update_calls = 3) := by
  have hprev : (astroIter oracleC8 (3 - 1) 0
      (initElectrode, initMissionEnvironment)).1.critical_failure = false := astroIterC8_two
  exact ⟨⟨by norm_num, by norm_num, hprev, astroIterC8_three⟩,
    claim_C8 oracleC8 3 (by norm_num) (by norm_num) hprev astroIterC8_three⟩
